import Mathlib

set_option maxRecDepth 40000

/-!
Verification of the medical-report pipeline (backend/ocr_utils.py,
backend/model.py, backend/app.py) against its natural-language
specification.  Python strings are embedded as lists of characters
(`Str`); each Python helper is translated into a Lean function of the
same name, and the claims of the specification are settled as theorems
about those functions.
-/

/-- A Python string, embedded as its list of characters. -/
abbrev Str := List Char

/-- Coerce a Lean string literal into the embedding type. -/
def str (s : String) : Str := s.data

/-- Python `str.lower()` (ASCII range, which covers all inputs here). -/
def pyLower (s : Str) : Str := s.map Char.toLower

/-- Python `str.upper()` (ASCII range). -/
def pyUpper (s : Str) : Str := s.map Char.toUpper

/-- The characters Python `str.strip()` removes (`" \t\n\r\x0b\x0c"`). -/
def pyIsSpace (c : Char) : Bool :=
  c == ' ' || c == '\t' || c == '\n' || c == '\r' || c == '\x0b' || c == '\x0c'

/-- Python `str.strip()`: drop leading and trailing whitespace. -/
def pyStrip (s : Str) : Str :=
  ((s.dropWhile pyIsSpace).reverse.dropWhile pyIsSpace).reverse

/-- Python's substring test `sub in s`. -/
def pyIn (sub : Str) : Str → Bool
  | [] => sub.isEmpty
  | c :: t => sub.isPrefixOf (c :: t) || pyIn sub t

/-- Python `s.split(sep)` (split on every occurrence, keeping empty parts). -/
def pySplitAll (sep : Char) : Str → List Str
  | [] => [[]]
  | c :: t =>
    if c = sep then [] :: pySplitAll sep t
    else match pySplitAll sep t with
      | a :: rest => (c :: a) :: rest
      | [] => [[c]]

/-- Python `s.split(sep, 1)` (at most one split). -/
def pySplit1 (sep : Char) : Str → List Str
  | [] => [[]]
  | c :: t =>
    if c = sep then [[], t]
    else match pySplit1 sep t with
      | a :: rest => (c :: a) :: rest
      | [] => [[c]]

/-- Python `sep.join(xs)`. -/
def pyJoin (sep : Str) : List Str → Str
  | [] => []
  | [x] => x
  | x :: xs => x ++ sep ++ pyJoin sep xs

/-- Python `s.split()` with no argument: split on whitespace runs, dropping
empty parts (used for word counts). -/
def pySplitWs (s : Str) : List Str :=
  ((s.splitOnP (pyIsSpace ·)).filter (fun w => !w.isEmpty))

/-- Decimal digits of a natural number. -/
def natDecimal (n : Nat) : Str := (toString n).data

/-- Insert a comma after every third character (used on reversed digits). -/
def commaGroup : Str → Str
  | a :: b :: c :: d :: rest => a :: b :: c :: ',' :: commaGroup (d :: rest)
  | ds => ds

/-- Python `format(n, ',')`: decimal digits grouped in threes by commas. -/
def pyCommaFormat (n : Nat) : Str :=
  (commaGroup (natDecimal n).reverse).reverse

/-! ### Bridging `pyIn` with `List.IsInfix` -/

theorem pyIn_infix_iff {sub s : Str} : pyIn sub s = true ↔ sub <:+: s := by
  induction s with
  | nil =>
    simp [pyIn, List.isEmpty_iff, List.infix_nil]
  | cons c t ih =>
    simp [pyIn, ih, List.infix_cons_iff, List.isPrefixOf_iff_prefix]

theorem pyIn_append_right (a : Str) {sub t : Str} (h : pyIn sub t = true) :
    pyIn sub (a ++ t) = true := by
  rw [pyIn_infix_iff] at h ⊢
  exact h.trans (List.suffix_append a t).isInfix

theorem pyIn_self_append (sub b : Str) : pyIn sub (sub ++ b) = true := by
  rw [pyIn_infix_iff]
  exact (List.prefix_append sub b).isInfix

theorem pyIn_middle (a : Str) {sub : Str} (b : Str) :
    pyIn sub (a ++ (sub ++ b)) = true :=
  pyIn_append_right a (pyIn_self_append sub b)

theorem pyIn_of_infix_left {sub t : Str} (b : Str) (h : pyIn sub t = true) :
    pyIn sub (t ++ b) = true := by
  rw [pyIn_infix_iff] at h ⊢
  exact h.trans (List.prefix_append t b).isInfix

-- basic sanity checks on the Python-string primitives
example : pyIn (str "ab") (str "xabz") = true := by decide
example : pyIn (str "ab") (str "xaz") = false := by decide
example : pySplitAll ':' (str "a:b:c") = [str "a", str "b", str "c"] := by decide
example : pySplit1 ':' (str "a:b:c") = [str "a", str "b:c"] := by decide
example : pyStrip (str "  a b  ") = str "a b" := by decide
example : pyJoin (str "\n") [str "a", str "b"] = str "a\nb" := by decide
example : pyCommaFormat 12345 = str "12,345" := by decide
example : pyCommaFormat 123 = str "123" := by decide
example : pyCommaFormat 1234567 = str "1,234,567" := by decide
example : pySplitWs (str "  hello   world ") = [str "hello", str "world"] := by decide

/-! ## ocr_utils.py -/

/-- `os.path.basename`: the component after the last `'/'`. -/
def osPathBasename (p : Str) : Str := (pySplitAll '/' p).getLastD p

/-- The extension part of `os.path.splitext` (applied to a basename):
the suffix from the last dot, unless every character before that dot is
itself a dot. -/
def splitextExt (name : Str) : Str :=
  if name.contains '.' then
    let extLen := (name.reverse.takeWhile (fun c => !(c == '.'))).length + 1
    let root := name.take (name.length - extLen)
    if root.all (fun c => c == '.') then [] else name.drop (name.length - extLen)
  else []

example : splitextExt (str "report.pdf") = str ".pdf" := by decide
example : splitextExt (str "archive.tar.gz") = str ".gz" := by decide
example : splitextExt (str ".bashrc") = [] := by decide
example : splitextExt (str "noext") = [] := by decide

/-- The raster-image extensions recognised by
`extract_file_metadata_and_content`. -/
def imageExts : List Str :=
  [str ".jpg", str ".jpeg", str ".png", str ".bmp", str ".tiff"]

/-- The collaborator-facing state of one extraction request: the uploaded
file and the behaviour of the external OCR engine on it.  `imageProps` is
the result of `PIL.Image.open` (`none` when it raises); `pdfOcr` and
`imageOcr` are the outcomes of the page-conversion-plus-OCR calls
(`Except.error` when they raise). -/
structure ExtractEnv where
  path : Str
  fileExists : Bool
  size : Nat
  imageProps : Option (Nat × Nat × Str)
  tesseractAvailable : Bool
  pdfOcr : Except Unit (List Str)
  imageOcr : Except Unit Str

/-- `generate_smart_analysis` from ocr_utils.py. -/
def generate_smart_analysis (filename : Str) (file_size : Nat)
    (file_extension : Str) (width height : Nat) (mode : Str) : Str :=
  let filename_lower := pyLower filename
  let dt :=
    if pyIn (str "surgery") filename_lower || pyIn (str "operative") filename_lower then
      (str "Surgical Operative Report", str "surgical procedure")
    else if pyIn (str "lab") filename_lower || pyIn (str "blood") filename_lower then
      (str "Laboratory Report", str "laboratory test results")
    else if pyIn (str "xray") filename_lower || pyIn (str "ct") filename_lower
        || pyIn (str "mri") filename_lower then
      (str "Imaging Report", str "diagnostic imaging findings")
    else if pyIn (str "discharge") filename_lower then
      (str "Discharge Summary", str "patient discharge information")
    else if pyIn (str "consultation") filename_lower then
      (str "Consultation Report", str "specialist consultation")
    else
      (str "Medical Report", str "medical documentation")
  let doc_type := dt.1
  let analysis_focus := dt.2
  let quality :=
    if width > 2000 && height > 2000 then str "High resolution"
    else if width > 1000 && height > 1000 then str "Medium resolution"
    else str "Standard resolution"
  str "\nMEDICAL DOCUMENT ANALYSIS\n\nDocument Type: " ++ doc_type ++
  str "\nFile: " ++ filename ++
  str "\nSize: " ++ pyCommaFormat file_size ++
  str " bytes\nFormat: " ++ pyUpper file_extension ++
  str "\nImage Quality: " ++ quality ++
  str " (" ++ natDecimal width ++ str "x" ++ natDecimal height ++
  str " pixels)\nColor Mode: " ++ mode ++
  str "\n\nDOCUMENT PROCESSING STATUS:\n✓ File successfully uploaded and processed\n✓ Document format recognized as medical report\n✓ Image quality adequate for analysis\n✓ Ready for medical interpretation\n\nCONTENT ANALYSIS:\nBased on the filename and document properties, this appears to be a " ++
  analysis_focus ++
  str " document. The file has been successfully processed and contains medical information that requires professional interpretation.\n\nTECHNICAL DETAILS:\n- Document dimensions: " ++
  natDecimal width ++ str " x " ++ natDecimal height ++
  str " pixels\n- File format: " ++ pyUpper file_extension ++
  str "\n- File size: " ++ pyCommaFormat file_size ++
  str " bytes\n- Processing status: Complete\n\nRECOMMENDATIONS:\n1. Review the document with your healthcare provider\n2. Ensure all information is clearly visible\n3. Keep this document for your medical records\n4. Follow any instructions provided in the original document\n5. Schedule follow-up appointments as recommended\n\nIMPORTANT NOTES:\n- This analysis is based on document metadata and filename analysis\n- For complete text extraction, OCR functionality can be enabled\n- Always consult with your healthcare provider for medical interpretation\n- This document has been successfully processed and is ready for review\n\nDISCLAIMER: This analysis is based on document processing. Always consult with your healthcare provider for medical advice.\n    "

/-- `generate_basic_file_analysis` from ocr_utils.py. -/
def generate_basic_file_analysis (filename : Str) (file_size : Nat)
    (file_extension : Str) : Str :=
  str "\nMEDICAL DOCUMENT PROCESSING\n\nFile: " ++ filename ++
  str "\nSize: " ++ pyCommaFormat file_size ++
  str " bytes\nFormat: " ++ pyUpper file_extension ++
  str "\n\nPROCESSING STATUS:\n✓ File successfully uploaded\n✓ Document format recognized\n✓ Ready for medical review\n\nCONTENT SUMMARY:\nThis medical document has been successfully processed and uploaded to the system. The file contains medical information that requires professional interpretation by a healthcare provider.\n\nRECOMMENDATIONS:\n1. Review the document with your healthcare provider\n2. Ensure all information is clearly visible\n3. Keep this document for your medical records\n4. Follow any instructions provided in the original document\n\nIMPORTANT NOTES:\n- Document successfully processed and uploaded\n- For complete text extraction, OCR functionality can be enabled\n- Always consult with your healthcare provider for medical interpretation\n\nDISCLAIMER: This analysis is based on document processing. Always consult with your healthcare provider for medical advice.\n    "

/-- `extract_file_metadata_and_content` from ocr_utils.py: the PIL
inspection of raster images is represented by `e.imageProps` (`none`
when `Image.open` raises, in which case the inner `except` falls through
to the basic analysis). -/
def extract_file_metadata_and_content (e : ExtractEnv) : Str :=
  let filename := osPathBasename e.path
  let file_size := if e.fileExists then e.size else 0
  let file_extension := pyLower (splitextExt filename)
  if imageExts.contains file_extension then
    match e.imageProps with
    | some (w, h, m) => generate_smart_analysis filename file_size file_extension w h m
    | none => generate_basic_file_analysis filename file_size file_extension
  else
    generate_basic_file_analysis filename file_size file_extension

/-- The exceptions of interest in the extraction path. -/
inductive PyErr where
  | fileNotFound
deriving DecidableEq

/-- The body of `extract_text_from_file`'s outer `try` block: raising
paths are `Except.error`; the inner OCR `try/except` already degrades
OCR failures to the metadata fallback. -/
def extract_text_from_file_body (e : ExtractEnv) : Except PyErr Str :=
  if !e.fileExists then .error .fileNotFound
  else if e.tesseractAvailable then
    if (str ".pdf").isSuffixOf (pyLower e.path) then
      match e.pdfOcr with
      | .ok images => .ok (images.foldl (fun text p => text ++ p ++ str "\n") [])
      | .error _ => .ok (extract_file_metadata_and_content e)
    else
      match e.imageOcr with
      | .ok t => .ok t
      | .error _ => .ok (extract_file_metadata_and_content e)
  else .ok (extract_file_metadata_and_content e)

/-- `extract_text_from_file` from ocr_utils.py: the outer
`except Exception` catches anything the body raises — including the
`FileNotFoundError` raised by the upfront existence check — and
degrades to the metadata fallback. -/
def extract_text_from_file (e : ExtractEnv) : Str :=
  match extract_text_from_file_body e with
  | .ok t => t
  | .error _ => extract_file_metadata_and_content e

/-! ## Claims C1, C2, C9 — the extraction fallback ladder -/

/-- A request whose file path does not exist on disk. -/
def missingFileEnv : ExtractEnv :=
  { path := str "uploads/missing.png", fileExists := false, size := 0,
    imageProps := none, tesseractAvailable := true,
    pdfOcr := .error (), imageOcr := .error () }

/-- C1: the claim says a nonexistent path makes `extract` fail with
`NotFoundError`.  The body does raise `FileNotFoundError`, but the
function's own outer `except Exception` swallows it and returns the
metadata fallback text instead: the caller never sees an error. -/
theorem c1_missing_file_error_swallowed :
    extract_text_from_file_body missingFileEnv = .error .fileNotFound ∧
    extract_text_from_file missingFileEnv =
      generate_basic_file_analysis (str "missing.png") 0 (str ".png") := by
  constructor
  · rfl
  · decide

/-- A PDF upload processed while OCR is unavailable: the basic (non-image)
fallback is taken. -/
def pdfNoOcrEnv : ExtractEnv :=
  { path := str "uploads/report.pdf", fileExists := true, size := 12345,
    imageProps := none, tesseractAvailable := false,
    pdfOcr := .error (), imageOcr := .error () }

/-- C2 counterexample: with OCR unavailable, the extraction of an existing
PDF of 12345 bytes returns text that contains the basename but carries
neither metadata sentinel marker, and its byte size appears only in
comma-grouped form (`12,345`), not verbatim. -/
theorem c2_basic_fallback_has_no_sentinel :
    pdfNoOcrEnv.tesseractAvailable = false ∧
    pyIn (str "report.pdf") (extract_text_from_file pdfNoOcrEnv) = true ∧
    pyIn (str "MEDICAL DOCUMENT ANALYSIS") (extract_text_from_file pdfNoOcrEnv) = false ∧
    pyIn (str "DOCUMENT PROCESSING STATUS") (extract_text_from_file pdfNoOcrEnv) = false ∧
    pyIn (str "12345") (extract_text_from_file pdfNoOcrEnv) = false ∧
    pyIn (str "12,345") (extract_text_from_file pdfNoOcrEnv) = true := by
  refine ⟨rfl, ?_, ?_, ?_, ?_, ?_⟩ <;> decide

/-- C2 amended: when OCR is unavailable, `extract` returns non-empty text
containing the basename verbatim and the byte size in comma-grouped
decimal; the metadata sentinel marker is carried only by the smart
(raster-image) branch of the fallback. -/
theorem c2_metadata_fallback_amended (e : ExtractEnv)
    (h1 : e.tesseractAvailable = false) (h2 : e.fileExists = true) :
    extract_text_from_file e ≠ [] ∧
    pyIn (osPathBasename e.path) (extract_text_from_file e) = true ∧
    pyIn (pyCommaFormat e.size) (extract_text_from_file e) = true ∧
    (∀ w h m,
      imageExts.contains (pyLower (splitextExt (osPathBasename e.path))) = true →
      e.imageProps = some (w, h, m) →
      pyIn (str "MEDICAL DOCUMENT ANALYSIS") (extract_text_from_file e) = true) := by
  have hr : extract_text_from_file e = extract_file_metadata_and_content e := by
    unfold extract_text_from_file extract_text_from_file_body
    rw [h1, h2]
    simp
  rw [hr]
  unfold extract_file_metadata_and_content
  simp only [h2, if_true]
  by_cases hc : imageExts.contains (pyLower (splitextExt (osPathBasename e.path))) = true
  · simp only [hc, if_true]
    cases hp : e.imageProps with
    | none =>
      simp only [generate_basic_file_analysis]
      refine ⟨?_, ?_, ?_, ?_⟩
      · repeat apply List.append_ne_nil_of_left_ne_nil
        decide
      · simp only [List.append_assoc]
        repeat first
          | exact pyIn_self_append _ _
          | apply pyIn_append_right
      · simp only [List.append_assoc]
        repeat first
          | exact pyIn_self_append _ _
          | apply pyIn_append_right
      · intro w h m _ hsome
        exact absurd hsome (by simp)
    | some whm =>
      obtain ⟨w0, h0, m0⟩ := whm
      simp only [generate_smart_analysis]
      refine ⟨?_, ?_, ?_, ?_⟩
      · repeat apply List.append_ne_nil_of_left_ne_nil
        decide
      · simp only [List.append_assoc]
        repeat first
          | exact pyIn_self_append _ _
          | apply pyIn_append_right
      · simp only [List.append_assoc]
        repeat first
          | exact pyIn_self_append _ _
          | apply pyIn_append_right
      · intro w h m _ _
        simp only [List.append_assoc]
        rw [pyIn_infix_iff]
        have hlit : (str "MEDICAL DOCUMENT ANALYSIS") <:+:
            (str "\nMEDICAL DOCUMENT ANALYSIS\n\nDocument Type: ") := by
          rw [← pyIn_infix_iff]; decide
        exact hlit.trans (List.prefix_append _ _).isInfix
  · simp only [hc, if_false]
    simp only [generate_basic_file_analysis]
    refine ⟨?_, ?_, ?_, ?_⟩
    · repeat apply List.append_ne_nil_of_left_ne_nil
      decide
    · simp only [List.append_assoc]
      repeat first
        | exact pyIn_self_append _ _
        | apply pyIn_append_right
    · simp only [List.append_assoc]
      repeat first
        | exact pyIn_self_append _ _
        | apply pyIn_append_right
    · intro w h m hcontains _
      exact absurd hcontains (by decide)

/-- C2 amended, witness: a concrete JPEG upload with OCR unavailable. -/
def jpgNoOcrEnv : ExtractEnv :=
  { path := str "uploads/scan.jpg", fileExists := true, size := 500,
    imageProps := some (800, 600, str "RGB"), tesseractAvailable := false,
    pdfOcr := .error (), imageOcr := .error () }

theorem c2_metadata_fallback_witness :
    extract_text_from_file jpgNoOcrEnv ≠ [] ∧
    pyIn (osPathBasename jpgNoOcrEnv.path) (extract_text_from_file jpgNoOcrEnv) = true ∧
    pyIn (pyCommaFormat jpgNoOcrEnv.size) (extract_text_from_file jpgNoOcrEnv) = true ∧
    (∀ w h m,
      imageExts.contains (pyLower (splitextExt (osPathBasename jpgNoOcrEnv.path))) = true →
      jpgNoOcrEnv.imageProps = some (w, h, m) →
      pyIn (str "MEDICAL DOCUMENT ANALYSIS") (extract_text_from_file jpgNoOcrEnv) = true) :=
  c2_metadata_fallback_amended jpgNoOcrEnv rfl rfl

/-- The page-accumulation loop of the PDF branch, expressed as a flat
concatenation of newline-terminated pages. -/
theorem foldl_pages_append (pages : List Str) (acc : Str) :
    pages.foldl (fun text p => text ++ p ++ str "\n") acc
      = acc ++ (pages.map (fun p => p ++ str "\n")).flatten := by
  induction pages generalizing acc with
  | nil => simp
  | cons p ps ih =>
    rw [List.foldl_cons, ih]
    simp [List.append_assoc]

/-- Newline-terminated page concatenation equals newline-separated joining
plus one trailing newline, for a non-empty page list. -/
theorem join_map_newline (pages : List Str) (hne : pages ≠ []) :
    (pages.map (fun p => p ++ str "\n")).flatten = pyJoin (str "\n") pages ++ str "\n" := by
  induction pages with
  | nil => exact absurd rfl hne
  | cons p ps ih =>
    cases ps with
    | nil => simp [pyJoin]
    | cons q qs =>
      rw [List.map_cons, List.flatten_cons, ih (by simp)]
      simp [pyJoin, List.append_assoc]

/-- A 7-page PDF with OCR available. -/
def sevenPagePdfEnv : ExtractEnv :=
  { path := str "uploads/scan.pdf", fileExists := true, size := 1000,
    imageProps := none, tesseractAvailable := true,
    pdfOcr := .ok [str "P1", str "P2", str "P3", str "P4", str "P5", str "P6", str "P7"],
    imageOcr := .error () }

/-- C9 counterexample: for a 7-page PDF the extracted text carries a
trailing newline after the last page, so it is not equal to the plain
newline-join of the page texts. -/
theorem c9_trailing_newline_counterexample :
    extract_text_from_file sevenPagePdfEnv = str "P1\nP2\nP3\nP4\nP5\nP6\nP7\n" ∧
    extract_text_from_file sevenPagePdfEnv ≠
      pyJoin (str "\n")
        [str "P1", str "P2", str "P3", str "P4", str "P5", str "P6", str "P7"] := by
  constructor <;> decide

/-- C9 amended: with OCR available, extraction of a PDF whose page OCR
succeeds returns the page texts in page order, each followed by a newline
— i.e. the newline-join of the pages plus a trailing newline. -/
theorem c9_pdf_pages_amended (e : ExtractEnv) (pages : List Str)
    (h1 : e.fileExists = true) (h2 : e.tesseractAvailable = true)
    (h3 : (str ".pdf").isSuffixOf (pyLower e.path) = true)
    (h4 : e.pdfOcr = .ok pages) (h5 : pages ≠ []) :
    extract_text_from_file e = pyJoin (str "\n") pages ++ str "\n" := by
  unfold extract_text_from_file extract_text_from_file_body
  rw [h1, h2, h3, h4]
  simp only [Bool.not_true, Bool.false_eq_true, if_false, if_true]
  rw [foldl_pages_append, join_map_newline pages h5]
  simp

/-- C9 amended, witness at the concrete 7-page PDF. -/
theorem c9_pdf_pages_witness :
    extract_text_from_file sevenPagePdfEnv =
      pyJoin (str "\n")
        [str "P1", str "P2", str "P3", str "P4", str "P5", str "P6", str "P7"]
      ++ str "\n" :=
  c9_pdf_pages_amended sevenPagePdfEnv
    [str "P1", str "P2", str "P3", str "P4", str "P5", str "P6", str "P7"]
    rfl rfl (by decide) rfl (by decide)

/-! ## model.py -/

/-- `line.split(':', 1)[1].strip()` under a `':' in line` guard. -/
def colonSplit1Tail (line : Str) : Str :=
  match pySplit1 ':' line with
  | _ :: v :: _ => pyStrip v
  | _ => []

/-- `line.split(':')[1].strip()`: the text between the first and second
colon (model.py uses the full split and takes index 1). -/
def colonSplitAllSecond (line : Str) : Str :=
  match pySplitAll ':' line with
  | _ :: v :: _ => pyStrip v
  | _ => []

/-- Leftmost match of the regex `(\d+)-year-old` at the head of `s`:
the maximal digit run, provided it is followed by the literal. -/
def ageDashMatchAt (s : Str) : Option Str :=
  let ds := s.takeWhile Char.isDigit
  if ds.isEmpty then none
  else if (str "-year-old").isPrefixOf (s.dropWhile Char.isDigit) then some ds
  else none

/-- `re.search(r'(\d+)-year-old', s)`: group 1 of the leftmost match. -/
def ageDashSearch : Str → Option Str
  | [] => none
  | c :: t => (ageDashMatchAt (c :: t)).orElse (fun _ => ageDashSearch t)

example : ageDashSearch (str "a 22-year-old man") = some (str "22") := by decide
example : ageDashSearch (str "22 year old") = none := by decide

/-- The mutable locals of model.py's `extract_patient_info` loop. -/
structure MPatientInfo where
  patient_name : Str
  age : Str
  gender : Str
  mr_number : Str
  date_of_operation : Str
  account_no : Str
  height : Str
  weight : Str
deriving DecidableEq

/-- The initial all-sentinel state of `extract_patient_info`. -/
def mPatientInit : MPatientInfo :=
  { patient_name := str "Not specified", age := str "Not specified",
    gender := str "Not specified", mr_number := str "Not specified",
    date_of_operation := str "Not specified", account_no := str "Not specified",
    height := str "Not specified", weight := str "Not specified" }

/-- One iteration of the `for line in lines` loop of model.py's
`extract_patient_info` (a single if/elif chain). -/
def mPatientStep (info : MPatientInfo) (line : Str) : MPatientInfo :=
  let line_lower := pyLower line
  if pyIn (str "patient name:") line_lower then
    match pySplitAll ':' line with
    | _ :: v :: _ => { info with patient_name := pyStrip v }
    | _ => info
  else if pyIn (str "mr number:") line_lower then
    match pySplitAll ':' line with
    | _ :: v :: _ => { info with mr_number := pyStrip v }
    | _ => info
  else if pyIn (str "date of operation:") line_lower then
    match pySplitAll ':' line with
    | _ :: v :: _ => { info with date_of_operation := pyStrip v }
    | _ => info
  else if pyIn (str "account no:") line_lower then
    match pySplitAll ':' line with
    | _ :: v :: _ => { info with account_no := pyStrip v }
    | _ => info
  else if pyIn (str "height:") line_lower then
    match pySplitAll ':' line with
    | _ :: v :: _ => { info with height := pyStrip v }
    | _ => info
  else if pyIn (str "weight:") line_lower then
    match pySplitAll ':' line with
    | _ :: v :: _ => { info with weight := pyStrip v }
    | _ => info
  else if pyIn (str "female") line_lower then
    { info with gender := str "Female" }
  else if pyIn (str "male") line_lower then
    { info with gender := str "Male" }
  else if pyIn (str "year-old") line_lower then
    match ageDashSearch line_lower with
    | some d => { info with age := d ++ str " years old" }
    | none => info
  else info

/-- `extract_patient_info` from model.py: run the line loop and render
the patient-information grid. -/
def extract_patient_info (text : Str) : Str :=
  let lines := pySplitAll '\n' text
  let r := lines.foldl mPatientStep mPatientInit
  str "\n    <div class=\"patient-info-grid\">\n        <div class=\"info-item\">\n            <strong>👤 Patient Name:</strong> " ++
  r.patient_name ++
  str "\n        </div>\n        <div class=\"info-item\">\n            <strong>🆔 MR Number:</strong> " ++
  r.mr_number ++
  str "\n        </div>\n        <div class=\"info-item\">\n            <strong>📅 Date of Operation:</strong> " ++
  r.date_of_operation ++
  str "\n        </div>\n        <div class=\"info-item\">\n            <strong>👥 Gender:</strong> " ++
  r.gender ++
  str "\n        </div>\n        <div class=\"info-item\">\n            <strong>🎂 Age:</strong> " ++
  r.age ++
  str "\n        </div>\n        <div class=\"info-item\">\n            <strong>📊 Height:</strong> " ++
  r.height ++
  str "\n        </div>\n        <div class=\"info-item\">\n            <strong>⚖️ Weight:</strong> " ++
  r.weight ++
  str "\n        </div>\n        <div class=\"info-item\">\n            <strong>🏥 Account No:</strong> " ++
  r.account_no ++
  str "\n        </div>\n    </div>\n    "

/-- The mutable locals of model.py's `extract_medical_details` loop. -/
structure MSurgicalInfo where
  preoperative_diagnosis : Str
  postoperative_diagnosis : Str
  operation_performed : Str
  surgeon : Str
  anesthesia : Str
  condition : Str
  complications : Str
  clinical_findings : Str
  procedure_details : Str
  procedure_started : Bool
deriving DecidableEq

/-- The initial (all-empty) state of `extract_medical_details`. -/
def mSurgicalInit : MSurgicalInfo :=
  { preoperative_diagnosis := [], postoperative_diagnosis := [],
    operation_performed := [], surgeon := [], anesthesia := [],
    condition := [], complications := [], clinical_findings := [],
    procedure_details := [], procedure_started := false }

/-- One iteration of the loop of model.py's `extract_medical_details`. -/
def mDetailsStep (s : MSurgicalInfo) (rawLine : Str) : MSurgicalInfo :=
  let line := pyStrip rawLine
  if line.isEmpty then s
  else
    let line_lower := pyLower line
    if pyIn (str "preoperative diagnosis:") line_lower then
      { s with preoperative_diagnosis :=
          if pyIn (str ":") line then colonSplit1Tail line else [] }
    else if pyIn (str "post-operative diagnosi:") line_lower
        || pyIn (str "postoperative diagnosis:") line_lower then
      { s with postoperative_diagnosis :=
          if pyIn (str ":") line then colonSplit1Tail line else [] }
    else if pyIn (str "operation performed:") line_lower then
      { s with operation_performed :=
          if pyIn (str ":") line then colonSplit1Tail line else [] }
    else if pyIn (str "surgeon") line_lower && s.surgeon.isEmpty then
      { s with surgeon := if pyIn (str ":") line then colonSplit1Tail line else line }
    else if pyIn (str "anesthesia") line_lower && s.anesthesia.isEmpty then
      { s with anesthesia := if pyIn (str ":") line then colonSplit1Tail line else line }
    else if pyIn (str "condition") line_lower && s.condition.isEmpty then
      { s with condition := if pyIn (str ":") line then colonSplit1Tail line else line }
    else if pyIn (str "complications") line_lower && s.complications.isEmpty then
      { s with complications := if pyIn (str ":") line then colonSplit1Tail line else line }
    else if pyIn (str "clinical finding:") line_lower then
      { s with clinical_findings :=
          if pyIn (str ":") line then colonSplit1Tail line else [] }
    else if pyIn (str "procedure:") line_lower then
      { s with procedure_started := true,
               procedure_details :=
                 if pyIn (str ":") line then colonSplit1Tail line else [] }
    else if s.procedure_started && !line.isEmpty then
      { s with procedure_details := s.procedure_details ++ str " " ++ line }
    else s

/-- `extract_medical_details` from model.py: run the loop and render the
non-empty sections (or the default paragraph). -/
def extract_medical_details (text : Str) : Str :=
  let lines := pySplitAll '\n' text
  let si := lines.foldl mDetailsStep mSurgicalInit
  let team_info :=
    (if !si.surgeon.isEmpty then
      [str "<strong>👨‍⚕️ Surgeon:</strong> " ++ si.surgeon] else []) ++
    (if !si.anesthesia.isEmpty then
      [str "<strong>💉 Anesthesia:</strong> " ++ si.anesthesia] else []) ++
    (if !si.condition.isEmpty then
      [str "<strong>📊 Condition:</strong> " ++ si.condition] else []) ++
    (if !si.complications.isEmpty then
      [str "<strong>⚠️ Complications:</strong> " ++ si.complications] else [])
  let formatted_sections :=
    (if !si.preoperative_diagnosis.isEmpty then
      [str "\n        <div class=\"surgical-section\">\n            <h4>🔍 Preoperative Diagnosis</h4>\n            <div class=\"highlight-box\">\n                <strong>" ++
       si.preoperative_diagnosis ++
       str "</strong>\n            </div>\n        </div>\n        "] else []) ++
    (if !si.postoperative_diagnosis.isEmpty then
      [str "\n        <div class=\"surgical-section\">\n            <h4>✅ Postoperative Diagnosis</h4>\n            <div class=\"highlight-box success\">\n                <strong>" ++
       si.postoperative_diagnosis ++
       str "</strong>\n            </div>\n        </div>\n        "] else []) ++
    (if !si.operation_performed.isEmpty then
      [str "\n        <div class=\"surgical-section\">\n            <h4>🏥 Operation Performed</h4>\n            <div class=\"highlight-box primary\">\n                <strong>" ++
       si.operation_performed ++
       str "</strong>\n            </div>\n        </div>\n        "] else []) ++
    (if !team_info.isEmpty then
      [str "\n        <div class=\"surgical-section\">\n            <h4>👥 Surgical Team & Status</h4>\n            <div class=\"team-info\">\n                " ++
       pyJoin (str "<br>") team_info ++
       str "\n            </div>\n        </div>\n        "] else []) ++
    (if !si.clinical_findings.isEmpty then
      [str "\n        <div class=\"surgical-section\">\n            <h4>🔬 Clinical Findings</h4>\n            <div class=\"clinical-findings\">\n                " ++
       si.clinical_findings ++
       str "\n            </div>\n        </div>\n        "] else []) ++
    (if !si.procedure_details.isEmpty then
      [str "\n        <div class=\"surgical-section\">\n            <h4>⚕️ Procedure Details</h4>\n            <div class=\"procedure-details\">\n                " ++
       si.procedure_details ++
       str "\n            </div>\n        </div>\n        "] else [])
  if !formatted_sections.isEmpty then formatted_sections.flatten
  else str "<p>Medical details extracted from the uploaded report. Please review the full document for complete information.</p>"

/-- `extract_recommendations` from model.py (note: six keywords, no
`advise`, and no truncation — unlike the app.py variant). -/
def extract_recommendations (text : Str) : Str :=
  let lines := pySplitAll '\n' text
  let recommendations := lines.foldl (fun acc line =>
    let line_lower := pyLower line
    if [str "recommend", str "follow-up", str "return", str "schedule",
        str "continue", str "discontinue"].any (fun k => pyIn k line_lower) then
      acc ++ [str "• " ++ pyStrip line]
    else acc) []
  if !recommendations.isEmpty then
    str "<ul>" ++
    (recommendations.map (fun r => str "<li>" ++ r ++ str "</li>")).flatten ++
    str "</ul>"
  else
    str "<p>Please consult with your healthcare provider for specific recommendations based on this report.</p>"

/-- `generate_real_medical_analysis` from model.py. -/
def generate_real_medical_analysis (text : Str) : Str :=
  let patient_info := extract_patient_info text
  let medical_details := extract_medical_details text
  let recommendations := extract_recommendations text
  str "\n    <h3>🏥 Medical Report Analysis</h3>\n    \n    <div class=\"analysis-section\">\n        <h4>👤 Patient Information</h4>\n        " ++
  patient_info ++
  str "\n    </div>\n    \n    <div class=\"analysis-section\">\n        <h4>📋 Medical Details</h4>\n        " ++
  medical_details ++
  str "\n    </div>\n    \n    <div class=\"analysis-section\">\n        <h4>💡 Recommendations</h4>\n        " ++
  recommendations ++
  str "\n    </div>\n    \n    <div class=\"important-note\">\n        <i class=\"fas fa-exclamation-circle\"></i> \n        <strong>Disclaimer:</strong> This analysis is generated from the uploaded medical report. Always consult with your healthcare provider for medical advice and interpretation.\n    </div>\n    "

/-- `extract_filename_from_text` from model.py. -/
def extract_filename_from_text (text : Str) : Str :=
  match (pySplitAll '\n' text).find? (fun line => pyIn (str "file:") (pyLower line)) with
  | some line => colonSplitAllSecond line
  | none => str "Medical Document"

/-- `extract_file_size_from_text` from model.py. -/
def extract_file_size_from_text (text : Str) : Str :=
  match (pySplitAll '\n' text).find? (fun line => pyIn (str "size:") (pyLower line)) with
  | some line => colonSplitAllSecond line
  | none => str "Unknown"

/-- `extract_document_type_from_text` from model.py. -/
def extract_document_type_from_text (text : Str) : Str :=
  match (pySplitAll '\n' text).find? (fun line => pyIn (str "document type:") (pyLower line)) with
  | some line => colonSplitAllSecond line
  | none => str "Medical Report"

/-- `generate_metadata_analysis` from model.py. -/
def generate_metadata_analysis (text : Str) : Str :=
  let filename := extract_filename_from_text text
  let file_size := extract_file_size_from_text text
  let doc_type := extract_document_type_from_text text
  str "\n    <h3>📄 Document Processing Report</h3>\n    \n    <div class=\"analysis-section\">\n        <h4>📋 Document Information</h4>\n        <p><strong>File:</strong> " ++
  filename ++
  str "</p>\n        <p><strong>Size:</strong> " ++
  file_size ++
  str "</p>\n        <p><strong>Type:</strong> " ++
  doc_type ++
  str "</p>\n    </div>\n    \n    <div class=\"analysis-section\">\n        <h4>⚠️ Processing Status</h4>\n        <p>This document has been successfully uploaded but OCR text extraction is not available. To get detailed medical analysis:</p>\n        <ol>\n            <li>Ensure the document is clear and readable</li>\n            <li>Try uploading a higher resolution version</li>\n            <li>Consult with your healthcare provider for interpretation</li>\n        </ol>\n    </div>\n    \n    <div class=\"important-note\">\n        <i class=\"fas fa-exclamation-circle\"></i> \n        <strong>Disclaimer:</strong> This is a document processing report. Always consult with your healthcare provider for medical advice.\n    </div>\n    "

/-- `generate_fallback_analysis` from model.py: dispatch on the metadata
sentinel markers, otherwise treat the input as real OCR text. -/
def generate_fallback_analysis (text : Str) : Str :=
  if pyIn (str "MEDICAL DOCUMENT ANALYSIS") text
      || pyIn (str "DOCUMENT PROCESSING STATUS") text then
    generate_metadata_analysis text
  else
    generate_real_medical_analysis text

/-- `model_inference` from model.py, with the module-level configuration
(`groq_api_key`, read from the environment at import time) and the remote
Groq chat call passed in explicitly; the call's result is `Except.error`
when the API raises.  Python's `if not groq_api_key` is true for both an
unset variable (`None`) and an empty string. -/
def model_inference (groq_api_key : Option Str)
    (remote : Str → Except Unit Str) (Content : Str) : Str :=
  let keyFalsy := match groq_api_key with
    | none => true
    | some k => k.isEmpty
  if keyFalsy then generate_fallback_analysis Content
  else
    match remote Content with
    | .ok response => response
    | .error _ => generate_fallback_analysis Content

/-- `generate_surgery_analysis` from model.py (defined in the source but
never called by `generate_fallback_analysis`). -/
def generate_surgery_analysis (text filename file_size doc_type : Str) : Str :=
  let _ := text
  str "\n    <h3>🏥 Surgical Report Analysis</h3>\n    \n    <div class=\"analysis-section\">\n        <h4>📋 Document Information</h4>\n        <p><strong>File:</strong> " ++
  filename ++
  str "</p>\n        <p><strong>Size:</strong> " ++
  file_size ++
  str "</p>\n        <p><strong>Type:</strong> " ++
  doc_type ++
  str "</p>\n    </div>\n    \n    <div class=\"analysis-section\">\n        <h4>🔍 Document Processing Status</h4>\n        <ul>\n            <li><strong>Upload Status:</strong> ✅ Successfully processed</li>\n            <li><strong>Document Recognition:</strong> ✅ Surgical operative report identified</li>\n            <li><strong>File Integrity:</strong> ✅ Document intact and readable</li>\n            <li><strong>Processing Quality:</strong> ✅ Ready for medical review</li>\n        </ul>\n    </div>\n    \n    <div class=\"analysis-section\">\n        <h4>📊 Clinical Assessment</h4>\n        <p>This surgical operative report has been successfully processed and uploaded to the system. The document contains comprehensive information about a surgical procedure and is ready for professional medical interpretation.</p>\n        \n        <p><strong>Key Observations:</strong></p>\n        <ul>\n            <li>Document format is appropriate for surgical reporting</li>\n            <li>File quality is adequate for medical review</li>\n            <li>All necessary information appears to be present</li>\n            <li>Document is ready for healthcare provider analysis</li>\n        </ul>\n    </div>\n    \n    <div class=\"analysis-section\">\n        <h4>💡 Recommendations</h4>\n        <ol>\n            <li><strong>Immediate Action:</strong> Review the document with your healthcare provider</li>\n            <li><strong>Follow-up Care:</strong> Schedule any recommended follow-up appointments</li>\n            <li><strong>Documentation:</strong> Keep this report for your medical records</li>\n            <li><strong>Questions:</strong> Prepare any questions for your healthcare provider</li>\n            <li><strong>Compliance:</strong> Follow any post-operative instructions provided</li>\n        </ol>\n    </div>\n    \n    <div class=\"analysis-section\">\n        <h4>📝 Next Steps</h4>\n        <p>This surgical report is now ready for professional medical interpretation. Please consult with your healthcare provider to:</p>\n        <ul>\n            <li>Review the surgical findings and outcomes</li>\n            <li>Discuss any post-operative care requirements</li>\n            <li>Address any concerns or questions you may have</li>\n            <li>Plan follow-up care and monitoring</li>\n        </ul>\n    </div>\n    \n    <div class=\"important-note\">\n        <i class=\"fas fa-exclamation-circle\"></i> \n        <strong>Important:</strong> This analysis confirms successful document processing. For complete medical interpretation and personalized recommendations, please consult with your healthcare provider.\n    </div>\n    "

/-- `generate_lab_analysis` from model.py (never called). -/
def generate_lab_analysis (text : Str) : Str :=
  let _ := text
  str "\n    <h3>🧪 Laboratory Report Analysis</h3>\n    \n    <div class=\"analysis-section\">\n        <h4>📊 Test Results Overview</h4>\n        <p>This laboratory report contains various diagnostic test results. The analysis indicates comprehensive testing has been performed to assess the patient's health status.</p>\n    </div>\n    \n    <div class=\"analysis-section\">\n        <h4>🔬 Key Laboratory Values</h4>\n        <ul>\n            <li><strong>Complete Blood Count:</strong> Within normal reference ranges</li>\n            <li><strong>Metabolic Panel:</strong> Normal electrolyte levels</li>\n            <li><strong>Liver Function:</strong> Normal enzyme levels</li>\n            <li><strong>Kidney Function:</strong> Normal creatinine and BUN levels</li>\n        </ul>\n    </div>\n    \n    <div class=\"analysis-section\">\n        <h4>📈 Clinical Interpretation</h4>\n        <p>The laboratory values appear to be within normal ranges, indicating good overall health status. No critical abnormalities were detected in the standard laboratory panels.</p>\n    </div>\n    \n    <div class=\"analysis-section\">\n        <h4>💡 Recommendations</h4>\n        <ol>\n            <li>Continue current medication regimen as prescribed</li>\n            <li>Maintain regular follow-up appointments</li>\n            <li>Follow dietary recommendations</li>\n            <li>Monitor for any new symptoms</li>\n            <li>Schedule next laboratory evaluation as directed</li>\n        </ol>\n    </div>\n    \n    <div class=\"important-note\">\n        <i class=\"fas fa-exclamation-circle\"></i> \n        <strong>Important:</strong> This analysis is based on document processing. For complete medical interpretation and personalized recommendations, please consult with your healthcare provider.\n    </div>\n    "

/-- `generate_imaging_analysis` from model.py (never called). -/
def generate_imaging_analysis (text : Str) : Str :=
  let _ := text
  str "\n    <h3>📷 Imaging Report Analysis</h3>\n    \n    <div class=\"analysis-section\">\n        <h4>🔍 Study Overview</h4>\n        <p>This imaging report contains diagnostic imaging findings. The study appears to be of adequate quality for proper interpretation and clinical assessment.</p>\n    </div>\n    \n    <div class=\"analysis-section\">\n        <h4>📊 Radiological Findings</h4>\n        <ul>\n            <li><strong>Anatomical Structures:</strong> Normal visualization</li>\n            <li><strong>Pathological Changes:</strong> No acute abnormalities identified</li>\n            <li><strong>Study Quality:</strong> Adequate for diagnostic purposes</li>\n            <li><strong>Comparison:</strong> Consistent with normal anatomy</li>\n        </ul>\n    </div>\n    \n    <div class=\"analysis-section\">\n        <h4>🏥 Clinical Assessment</h4>\n        <p>The imaging study demonstrates normal anatomical structures without evidence of acute pathological changes. The findings are consistent with expected normal anatomy.</p>\n    </div>\n    \n    <div class=\"analysis-section\">\n        <h4>💡 Recommendations</h4>\n        <ol>\n            <li>Continue current treatment plan</li>\n            <li>Follow-up imaging as clinically indicated</li>\n            <li>Monitor for any new symptoms</li>\n            <li>Regular follow-up with healthcare provider</li>\n            <li>Maintain routine health monitoring</li>\n        </ol>\n    </div>\n    \n    <div class=\"important-note\">\n        <i class=\"fas fa-exclamation-circle\"></i> \n        <strong>Important:</strong> This analysis is based on document processing. For complete medical interpretation and personalized recommendations, please consult with your healthcare provider.\n    </div>\n    "

/-- `generate_general_analysis` from model.py (never called); mentions the
input's word count. -/
def generate_general_analysis (text : Str) : Str :=
  str "\n    <h3>📋 Medical Report Analysis</h3>\n    \n    <div class=\"analysis-section\">\n        <h4>📄 Document Summary</h4>\n        <p>This medical report has been successfully processed and analyzed. The document contains " ++
  natDecimal (pySplitWs text).length ++
  str " words of medical information and appears to be comprehensive medical documentation.</p>\n    </div>\n    \n    <div class=\"analysis-section\">\n        <h4>🔍 Key Observations</h4>\n        <ul>\n            <li><strong>Document Status:</strong> Successfully processed</li>\n            <li><strong>Content Quality:</strong> Comprehensive medical information</li>\n            <li><strong>Processing:</strong> Complete analysis performed</li>\n            <li><strong>Clinical Value:</strong> Ready for medical review</li>\n        </ul>\n    </div>\n    \n    <div class=\"analysis-section\">\n        <h4>📊 Clinical Assessment</h4>\n        <p>The medical report appears to contain standard medical documentation with appropriate clinical information. The document is ready for healthcare provider review and interpretation.</p>\n    </div>\n    \n    <div class=\"analysis-section\">\n        <h4>💡 Recommendations</h4>\n        <ol>\n            <li>Review findings with healthcare provider</li>\n            <li>Follow any prescribed treatment plans</li>\n            <li>Maintain regular medical follow-up</li>\n            <li>Keep documentation for medical records</li>\n            <li>Contact healthcare provider with any questions</li>\n        </ol>\n    </div>\n    \n    <div class=\"important-note\">\n        <i class=\"fas fa-exclamation-circle\"></i> \n        <strong>Important:</strong> This analysis is based on document processing. For complete medical interpretation and personalized recommendations, please consult with your healthcare provider.\n    </div>\n    "

/-! ## Claims C3, C8 — the Analyzer fallback -/

/-- The classified fallback described by the spec (§4.2 step 2b), stated
from the spec's words for refinement comparison with the implementation:
classify the input by keyword scan (`surgery`/`operative`,
`lab`/`blood`/`test`, `xray`/`ct`/`mri`/`imaging`, else general) and
return the corresponding fixed template from the source. -/
def spec_classified_fallback (text : Str) : Str :=
  let tl := pyLower text
  if pyIn (str "surgery") tl || pyIn (str "operative") tl then
    generate_surgery_analysis text (extract_filename_from_text text)
      (extract_file_size_from_text text) (extract_document_type_from_text text)
  else if pyIn (str "lab") tl || pyIn (str "blood") tl || pyIn (str "test") tl then
    generate_lab_analysis text
  else if pyIn (str "xray") tl || pyIn (str "ct") tl
      || pyIn (str "mri") tl || pyIn (str "imaging") tl then
    generate_imaging_analysis text
  else
    generate_general_analysis text

/-- C3 counterexample: the sentinel-free input `"surgery"` contains the
`surgery` keyword, yet the Analyzer's fallback returns the single
real-medical-analysis template, not the keyword-classified surgery
template the spec describes. -/
theorem c3_no_keyword_classification_counterexample :
    pyIn (str "MEDICAL DOCUMENT ANALYSIS") (str "surgery") = false ∧
    pyIn (str "DOCUMENT PROCESSING STATUS") (str "surgery") = false ∧
    pyIn (str "surgery") (pyLower (str "surgery")) = true ∧
    model_inference none (fun _ => .error ()) (str "surgery")
      = generate_real_medical_analysis (str "surgery") ∧
    generate_fallback_analysis (str "surgery")
      ≠ spec_classified_fallback (str "surgery") := by
  refine ⟨by decide, by decide, by decide, rfl, by decide⟩

/-- C3 amended: without remote-model configuration, the Analyzer applies
no keyword classification to sentinel-free text — it always returns the
real-medical-analysis template populated with the structured fields
recovered from the text; the four classified templates in the source are
never invoked. -/
theorem c3_fallback_always_real_medical (text : Str)
    (h1 : pyIn (str "MEDICAL DOCUMENT ANALYSIS") text = false)
    (h2 : pyIn (str "DOCUMENT PROCESSING STATUS") text = false)
    (key : Option Str)
    (hkey : (match key with | none => true | some k => k.isEmpty) = true)
    (remote : Str → Except Unit Str) :
    model_inference key remote text = generate_real_medical_analysis text := by
  unfold model_inference generate_fallback_analysis
  simp [hkey, h1, h2]

/-- C3 amended, witness at a concrete keyword-bearing input. -/
theorem c3_fallback_witness :
    model_inference none (fun _ => .error ()) (str "lab results")
      = generate_real_medical_analysis (str "lab results") :=
  c3_fallback_always_real_medical (str "lab results") (by decide) (by decide)
    none rfl _

/-- C8: with no API key configured, `analyze` performs no remote call, is
total (the embedding is a Lean function, and the fallback path contains
no raising operation), and returns the non-empty fallback analysis. -/
theorem c8_no_key_returns_nonempty (key : Option Str)
    (hkey : (match key with | none => true | some k => k.isEmpty) = true)
    (remote : Str → Except Unit Str) (content : Str) :
    model_inference key remote content = generate_fallback_analysis content ∧
    model_inference key remote content ≠ [] := by
  have h1 : model_inference key remote content = generate_fallback_analysis content := by
    unfold model_inference
    simp [hkey]
  refine ⟨h1, ?_⟩
  rw [h1]
  unfold generate_fallback_analysis
  split
  · simp only [generate_metadata_analysis]
    repeat apply List.append_ne_nil_of_left_ne_nil
    decide
  · simp only [generate_real_medical_analysis]
    repeat apply List.append_ne_nil_of_left_ne_nil
    decide

/-- C8 witness: a concrete inference call with no key configured. -/
theorem c8_no_key_witness :
    model_inference none (fun _ => .error ()) (str "Patient is stable.")
      = generate_fallback_analysis (str "Patient is stable.") ∧
    model_inference none (fun _ => .error ()) (str "Patient is stable.") ≠ [] :=
  c8_no_key_returns_nonempty none rfl _ _

/-! ## app.py -/

/-- Fuelled worker for `pyReplace` (structural recursion on the fuel so
the kernel can evaluate it; the fuel is always at least the input's
length, and every step consumes at least one character, so the fuel
never runs out). -/
def pyReplaceFuel (old new : Str) : Nat → Str → Str
  | 0, s => s
  | _, [] => []
  | fuel + 1, c :: t =>
    if old.isPrefixOf (c :: t) && !old.isEmpty then
      new ++ pyReplaceFuel old new fuel (t.drop (old.length - 1))
    else
      c :: pyReplaceFuel old new fuel t

/-- Python `s.replace(old, new)`: replace every non-overlapping leftmost
occurrence (all `old` patterns used here are non-empty). -/
def pyReplace (old new : Str) (s : Str) : Str := pyReplaceFuel old new s.length s

example : pyReplace (str "ab") (str "X") (str "cababd") = str "cXXd" := by decide

/-- `clean_text` from app.py: the fixed typographic replacements followed
by latin-1 re-encoding with `'ignore'` (which never raises — it simply
drops every character above U+00FF, so the `except` branch is dead). -/
def clean_text (text : Str) : Str :=
  if text.isEmpty then []
  else
    let text := pyReplace (str "•") (str "•") text
    let text := pyReplace (str "–") (str "-") text
    let text := pyReplace (str "—") (str "--") text
    let text := pyReplace (str "‘") (str "'") text
    let text := pyReplace (str "’") (str "'") text
    let text := pyReplace (str "“") (str "\"") text
    let text := pyReplace (str "”") (str "\"") text
    let text := pyReplace (str "…") (str "...") text
    let text := pyReplace (str " ") (str " ") text
    let text := pyReplace (str "°") (str "°") text
    let text := pyReplace (str "®") (str "(R)") text
    let text := pyReplace (str "©") (str "(C)") text
    text.filter (fun c => c.toNat ≤ 255)

example : clean_text (str "a—b") = str "a--b" := by decide
example : clean_text (str "• x") = str " x" := by decide

/-- Length (including the closing `'>'`) of the shortest prefix ending in
`'>'`, provided no newline intervenes — the lazy body of `re` pattern
`<.*?>` after its opening `'<'` (`.` does not match newlines). -/
def findTagClose : Str → Option Nat
  | [] => none
  | c :: t =>
    if c = '>' then some 1
    else if c = '\n' then none
    else match findTagClose t with
      | some n => some (n + 1)
      | none => none

/-- Fuelled worker for `stripHtmlTags` (structural recursion on the fuel;
`findTagClose` returns at least 1, so every step consumes at least one
character and the fuel never runs out). -/
def stripHtmlTagsFuel : Nat → Str → Str
  | 0, s => s
  | _, [] => []
  | fuel + 1, c :: t =>
    if c = '<' then
      match findTagClose t with
      | some n => stripHtmlTagsFuel fuel (t.drop n)
      | none => c :: stripHtmlTagsFuel fuel t
    else c :: stripHtmlTagsFuel fuel t

/-- `re.sub('<.*?>', '', text)`: drop every lazy tag match, scanning left
to right. -/
def stripHtmlTags (s : Str) : Str := stripHtmlTagsFuel s.length s

example : stripHtmlTags (str "a<b><i>c</i>") = str "ac" := by decide
example : stripHtmlTags (str "x < y > z") = str "x  z" := by decide
example : stripHtmlTags (str "a<b\nc>d") = str "a<b\nc>d" := by decide

/-- `clean_html_tags` from app.py: strip tags, decode the fixed HTML
entities, then `clean_text`. -/
def clean_html_tags (text : Str) : Str :=
  if text.isEmpty then []
  else
    let text := stripHtmlTags text
    let text := pyReplace (str "&amp;") (str "&") text
    let text := pyReplace (str "&lt;") (str "<") text
    let text := pyReplace (str "&gt;") (str ">") text
    let text := pyReplace (str "&quot;") (str "\"") text
    let text := pyReplace (str "&#39;") (str "'") text
    let text := pyReplace (str "&nbsp;") (str " ") text
    clean_text text

/-- Python `\w` (ASCII range): letters, digits and underscore. -/
def isWordChar (c : Char) : Bool := c.isAlphanum || c == '_'

/-- Leftmost-match head attempt for `(\d+)[\s-]*(?:year-old|years old)`:
the maximal digit run, then a maximal run of whitespace/dashes, then one
of the two literals (only the maximal runs can succeed, because the
following literal starts with a character outside both classes). -/
def agePatternMatchAt (s : Str) : Option Str :=
  let ds := s.takeWhile Char.isDigit
  if ds.isEmpty then none
  else
    let rest := (s.dropWhile Char.isDigit).dropWhile
      (fun c => pyIsSpace c || c == '-')
    if (str "year-old").isPrefixOf rest || (str "years old").isPrefixOf rest then
      some ds
    else none

/-- `re.search(r'(\d+)[\s-]*(?:year-old|years old)', s)`: group 1 of the
leftmost match. -/
def agePatternSearch : Str → Option Str
  | [] => none
  | c :: t => (agePatternMatchAt (c :: t)).orElse (fun _ => agePatternSearch t)

example : agePatternSearch (str "a 45-year-old man") = some (str "45") := by decide
example : agePatternSearch (str "45 years old") = some (str "45") := by decide
example : agePatternSearch (str "045year-old") = some (str "045") := by decide
example : agePatternSearch (str "45 yr old") = none := by decide

/-- Head attempt for `\b[A-Z][a-z]+\s+[A-Z][a-z]+\b` given the preceding
character (`none` at the start of the text): the runs are forced to be
maximal because each following atom starts outside the preceding class. -/
def nameMatchAt (prev : Option Char) : Str → Option Str
  | [] => none
  | c :: rest =>
    if (match prev with | some p => isWordChar p | none => false) then none
    else if c.isUpper then
      let low1 := rest.takeWhile Char.isLower
      if low1.isEmpty then none
      else
        let r1 := rest.dropWhile Char.isLower
        let sp := r1.takeWhile pyIsSpace
        if sp.isEmpty then none
        else
          match r1.dropWhile pyIsSpace with
          | [] => none
          | d :: rest2 =>
            if d.isUpper then
              let low2 := rest2.takeWhile Char.isLower
              if low2.isEmpty then none
              else
                match rest2.dropWhile Char.isLower with
                | [] => some (c :: low1 ++ sp ++ d :: low2)
                | n :: _ =>
                  if isWordChar n then none
                  else some (c :: low1 ++ sp ++ d :: low2)
            else none
    else none

/-- `re.search(r'\b[A-Z][a-z]+\s+[A-Z][a-z]+\b', s)`: the leftmost
capitalised-pair match. -/
def nameSearchAux (prev : Option Char) : Str → Option Str
  | [] => none
  | c :: t => (nameMatchAt prev (c :: t)).orElse (fun _ => nameSearchAux (some c) t)

def nameSearch (s : Str) : Option Str := nameSearchAux none s

example : nameSearch (str "seen by Jane Doe today") = some (str "Jane Doe") := by decide
example : nameSearch (str "hello") = none := by decide
example : nameSearch (str "MRsmith Jones Alice") = some (str "Jones Alice") := by decide
example : nameSearch (str "Ab Cd5 then Ef Gh") = some (str "Ef Gh") := by decide

/-- Head attempt for `\b\d{k}\b`: exactly `k` digits delimited by word
boundaries. -/
def digitRunMatchAt (k : Nat) (prev : Option Char) (s : Str) : Option Str :=
  if (match prev with | some p => isWordChar p | none => false) then none
  else
    let ds := s.takeWhile Char.isDigit
    if ds.length = k then
      match s.drop k with
      | [] => some ds
      | n :: _ => if isWordChar n then none else some ds
    else none

/-- `re.search(r'\b\d{k}\b', s)` (used with `k = 6` for MR numbers and
`k = 7` for account numbers). -/
def digitRunSearchAux (k : Nat) (prev : Option Char) : Str → Option Str
  | [] => none
  | c :: t => (digitRunMatchAt k prev (c :: t)).orElse (fun _ => digitRunSearchAux k (some c) t)

def digitRunSearch (k : Nat) (s : Str) : Option Str := digitRunSearchAux k none s

example : digitRunSearch 6 (str "mr 123456 ok") = some (str "123456") := by decide
example : digitRunSearch 6 (str "num 1234567 ok") = none := by decide
example : digitRunSearch 7 (str "num 1234567 ok") = some (str "1234567") := by decide

/-- Exactly `n` leading digits, with the remainder. -/
def takeExactDigits (n : Nat) (s : Str) : Option (Str × Str) :=
  let ds := s.take n
  if ds.length = n && ds.all Char.isDigit then some (ds, s.drop n) else none

/-- A date separator: a slash or a dash. -/
def dateSep (s : Str) : Option (Char × Str) :=
  match s with
  | c :: t => if c = '/' || c = '-' then some (c, t) else none
  | [] => none

/-- Greedy `\d{2,4}` at the head (nothing follows it in the pattern). -/
def dateD3 (s : Str) : Option Str :=
  match takeExactDigits 4 s with
  | some (a, _) => some a
  | none =>
    match takeExactDigits 3 s with
    | some (a, _) => some a
    | none =>
      match takeExactDigits 2 s with
      | some (a, _) => some a
      | none => none

/-- Head attempt for the first date alternative (one or two digits, a
slash-or-dash separator, one or two digits, another separator, then two
to four digits), backtracking over
the two greedy `\d{1,2}` groups in regex order. -/
def dateAlt1At (s : Str) : Option Str :=
  let tryWith : Nat → Nat → Option Str := fun n1 n2 =>
    match takeExactDigits n1 s with
    | none => none
    | some (d1, r1) =>
      match dateSep r1 with
      | none => none
      | some (s1, r2) =>
        match takeExactDigits n2 r2 with
        | none => none
        | some (d2, r3) =>
          match dateSep r3 with
          | none => none
          | some (s2, r4) =>
            match dateD3 r4 with
            | none => none
            | some d3 => some (d1 ++ [s1] ++ d2 ++ [s2] ++ d3)
  (tryWith 2 2).orElse fun _ =>
    (tryWith 2 1).orElse fun _ =>
      (tryWith 1 2).orElse fun _ => tryWith 1 1

/-- Head attempt for `\d{1,2}/\d{4}`. -/
def dateAlt2At (s : Str) : Option Str :=
  let tryWith : Nat → Option Str := fun n1 =>
    match takeExactDigits n1 s with
    | none => none
    | some (d1, r1) =>
      match r1 with
      | '/' :: r2 =>
        match takeExactDigits 4 r2 with
        | none => none
        | some (d4, _) => some (d1 ++ str "/" ++ d4)
      | _ => none
  (tryWith 2).orElse fun _ => tryWith 1

/-- The date-pattern search of app.py (two alternatives, slash-or-dash
separated groups): whole text of the leftmost match. -/
def dateSearch : Str → Option Str
  | [] => none
  | c :: t =>
    ((dateAlt1At (c :: t)).orElse fun _ =>
      dateAlt2At (c :: t)).orElse fun _ => dateSearch t

example : dateSearch (str "on 12/31/2024 x") = some (str "12/31/2024") := by decide
example : dateSearch (str "on 3-4-25") = some (str "3-4-25") := by decide
example : dateSearch (str "in 11/2024") = some (str "11/2024") := by decide
example : dateSearch (str "no date here") = none := by decide

/-- The `patient_info` dict of app.py's `extract_patient_info_for_pdf`. -/
structure PatientRec where
  name : Str
  mr_number : Str
  date_of_operation : Str
  age : Str
  gender : Str
  account_no : Str
  height : Str
  weight : Str
deriving DecidableEq

/-- The sentinel-initialised patient record. -/
def patientInit : PatientRec :=
  { name := str "Not specified", mr_number := str "Not specified",
    date_of_operation := str "Not specified", age := str "Not specified",
    gender := str "Not specified", account_no := str "Not specified",
    height := str "Not specified", weight := str "Not specified" }

/-- The patient-name block of the loop (first if/elif pair). -/
def updName (line ll : Str) (info : PatientRec) : PatientRec :=
  if pyIn (str "patient name:") ll || pyIn (str "patient:") ll then
    match pySplit1 ':' line with
    | _ :: v :: _ => { info with name := pyStrip v }
    | _ => info
  else if pyIn (str "name:") ll && pyIn (str "patient") ll then
    match pySplit1 ':' line with
    | _ :: v :: _ => { info with name := pyStrip v }
    | _ => info
  else info

/-- The MR-number block. -/
def updMr (line ll : Str) (info : PatientRec) : PatientRec :=
  if pyIn (str "mr number:") ll || pyIn (str "mr no:") ll || pyIn (str "mr:") ll then
    match pySplit1 ':' line with
    | _ :: v :: _ => { info with mr_number := pyStrip v }
    | _ => info
  else if pyIn (str "medical record") ll && pyIn (str ":") line then
    match pySplit1 ':' line with
    | _ :: v :: _ => { info with mr_number := pyStrip v }
    | _ => info
  else info

/-- The date-of-operation block. -/
def updDate (line ll : Str) (info : PatientRec) : PatientRec :=
  if [str "date of operation:", str "operation date:", str "surgery date:",
      str "date of surgery:"].any (fun p => pyIn p ll) then
    match pySplit1 ':' line with
    | _ :: v :: _ => { info with date_of_operation := pyStrip v }
    | _ => info
  else info

/-- The account-number block. -/
def updAccount (line ll : Str) (info : PatientRec) : PatientRec :=
  if pyIn (str "account no:") ll || pyIn (str "account number:") ll
      || pyIn (str "account:") ll then
    match pySplit1 ':' line with
    | _ :: v :: _ => { info with account_no := pyStrip v }
    | _ => info
  else info

/-- The height block. -/
def updHeight (line ll : Str) (info : PatientRec) : PatientRec :=
  if pyIn (str "height:") ll then
    match pySplit1 ':' line with
    | _ :: v :: _ => { info with height := pyStrip v }
    | _ => info
  else info

/-- The weight block. -/
def updWeight (line ll : Str) (info : PatientRec) : PatientRec :=
  if pyIn (str "weight:") ll then
    match pySplit1 ':' line with
    | _ :: v :: _ => { info with weight := pyStrip v }
    | _ => info
  else info

/-- The gender block — the only patient block guarded by the sentinel, so
a recovered gender is never overwritten; the `female` test precedes the
`male` test within each line. -/
def updGender (ll : Str) (info : PatientRec) : PatientRec :=
  if pyIn (str "female") ll && (info.gender == str "Not specified") then
    { info with gender := str "Female" }
  else if pyIn (str "male") ll && (info.gender == str "Not specified") then
    { info with gender := str "Male" }
  else info

/-- The age block. -/
def updAge (line ll : Str) (info : PatientRec) : PatientRec :=
  if pyIn (str "year-old") ll || pyIn (str "years old") ll then
    match agePatternSearch ll with
    | some d => { info with age := d ++ str " years old" }
    | none => info
  else if pyIn (str "age:") ll then
    match pySplit1 ':' line with
    | _ :: v :: _ => { info with age := pyStrip v }
    | _ => info
  else info

/-- One iteration of the `for line in lines` loop of app.py's
`extract_patient_info_for_pdf`: strip the line, skip it when blank, then
run the eight independent field blocks in source order. -/
def patientStep (info : PatientRec) (rawLine : Str) : PatientRec :=
  let line := pyStrip rawLine
  if line.isEmpty then info
  else
    let line_lower := pyLower line
    updAge line line_lower
      (updGender line_lower
        (updWeight line line_lower
          (updHeight line line_lower
            (updAccount line line_lower
              (updDate line line_lower
                (updMr line line_lower
                  (updName line line_lower info)))))))

/-- The line pass of `extract_patient_info_for_pdf`. -/
def patientLinePass (lines : List Str) : PatientRec :=
  lines.foldl patientStep patientInit

/-- The vocabulary excluded from the person-name fallback. -/
def medicalTerms : List Str :=
  [str "surgery", str "operative", str "report", str "medical",
   str "hospital", str "doctor", str "nurse"]

/-- The whole-text fallback scans of `extract_patient_info_for_pdf`, run
only for fields still holding the sentinel after the line pass. -/
def patientFallbacks (text : Str) (info0 : PatientRec) : PatientRec :=
  let info1 :=
    if info0.name == str "Not specified" then
      match nameSearch text with
      | some potential_name =>
        if !(medicalTerms.any fun t => pyIn t (pyLower potential_name)) then
          { info0 with name := potential_name }
        else info0
      | none => info0
    else info0
  let info2 :=
    if info1.mr_number == str "Not specified" then
      match digitRunSearch 6 text with
      | some m => { info1 with mr_number := m }
      | none => info1
    else info1
  let info3 :=
    if info2.date_of_operation == str "Not specified" then
      match dateSearch text with
      | some d => { info2 with date_of_operation := d }
      | none => info2
    else info2
  if info3.account_no == str "Not specified" then
    match digitRunSearch 7 text with
    | some a => { info3 with account_no := a }
    | none => info3
  else info3

/-- The post-pass cleanup of one recovered value: keep only the part after
the last colon. -/
def cleanupValue (v : Str) : Str :=
  if v != str "Not specified" && pyIn (str ":") v then
    pyStrip ((pySplitAll ':' v).getLastD v)
  else v

/-- The post-pass cleanup over all eight fields. -/
def patientCleanup (p : PatientRec) : PatientRec :=
  { name := cleanupValue p.name, mr_number := cleanupValue p.mr_number,
    date_of_operation := cleanupValue p.date_of_operation,
    age := cleanupValue p.age, gender := cleanupValue p.gender,
    account_no := cleanupValue p.account_no,
    height := cleanupValue p.height, weight := cleanupValue p.weight }

/-- The recovered patient record of `extract_patient_info_for_pdf`:
line pass, then fallback scans, then cleanup. -/
def extract_patient_info_record (text : Str) : PatientRec :=
  patientCleanup (patientFallbacks text (patientLinePass (pySplitAll '\n' text)))

/-- `extract_patient_info_for_pdf` from app.py: the formatted eight-line
block returned to the renderer. -/
def extract_patient_info_for_pdf (text : Str) : Str :=
  let p := extract_patient_info_record text
  pyJoin (str "\n")
    [str "Patient Name: " ++ p.name,
     str "MR Number: " ++ p.mr_number,
     str "Date of Operation: " ++ p.date_of_operation,
     str "Age: " ++ p.age,
     str "Gender: " ++ p.gender,
     str "Account No: " ++ p.account_no,
     str "Height: " ++ p.height,
     str "Weight: " ++ p.weight]

/-- The `surgical_info` dict of app.py's `extract_surgical_info_for_pdf`. -/
structure SurgicalRec where
  preoperative_diagnosis : Str
  postoperative_diagnosis : Str
  operation_performed : Str
  surgeon : Str
  anesthesia : Str
  condition : Str
  complications : Str
deriving DecidableEq

/-- The sentinel-initialised surgical record. -/
def surgicalInit : SurgicalRec :=
  { preoperative_diagnosis := str "Not specified",
    postoperative_diagnosis := str "Not specified",
    operation_performed := str "Not specified",
    surgeon := str "Not specified", anesthesia := str "Not specified",
    condition := str "Not specified", complications := str "Not specified" }

/-- One iteration of the loop of `extract_surgical_info_for_pdf` (a
single if/elif chain; only the last four fields are guarded by the
sentinel). -/
def surgicalStep (info : SurgicalRec) (rawLine : Str) : SurgicalRec :=
  let line := pyStrip rawLine
  if line.isEmpty then info
  else
    let ll := pyLower line
    if pyIn (str "preoperative diagnosis:") ll then
      match pySplit1 ':' line with
      | _ :: v :: _ => { info with preoperative_diagnosis := pyStrip v }
      | _ => info
    else if pyIn (str "post-operative diagnosi:") ll
        || pyIn (str "postoperative diagnosis:") ll then
      match pySplit1 ':' line with
      | _ :: v :: _ => { info with postoperative_diagnosis := pyStrip v }
      | _ => info
    else if pyIn (str "operation performed:") ll then
      match pySplit1 ':' line with
      | _ :: v :: _ => { info with operation_performed := pyStrip v }
      | _ => info
    else if pyIn (str "surgeon") ll && (info.surgeon == str "Not specified") then
      match pySplit1 ':' line with
      | _ :: v :: _ => { info with surgeon := pyStrip v }
      | _ => info
    else if pyIn (str "anesthesia") ll && (info.anesthesia == str "Not specified") then
      match pySplit1 ':' line with
      | _ :: v :: _ => { info with anesthesia := pyStrip v }
      | _ => info
    else if pyIn (str "condition") ll && (info.condition == str "Not specified") then
      match pySplit1 ':' line with
      | _ :: v :: _ => { info with condition := pyStrip v }
      | _ => info
    else if pyIn (str "complications") ll && (info.complications == str "Not specified") then
      match pySplit1 ':' line with
      | _ :: v :: _ => { info with complications := pyStrip v }
      | _ => info
    else info

/-- The recovered surgical record of `extract_surgical_info_for_pdf`. -/
def extract_surgical_info_record (text : Str) : SurgicalRec :=
  (pySplitAll '\n' text).foldl surgicalStep surgicalInit

/-- `extract_surgical_info_for_pdf` from app.py: the formatted seven-line
block returned to the renderer. -/
def extract_surgical_info_for_pdf (text : Str) : Str :=
  let s := extract_surgical_info_record text
  pyJoin (str "\n")
    [str "Preoperative Diagnosis: " ++ s.preoperative_diagnosis,
     str "Postoperative Diagnosis: " ++ s.postoperative_diagnosis,
     str "Operation Performed: " ++ s.operation_performed,
     str "Surgeon: " ++ s.surgeon,
     str "Anesthesia: " ++ s.anesthesia,
     str "Condition: " ++ s.condition,
     str "Complications: " ++ s.complications]

/-- The recommendation trigger keywords of app.py (including `advise`). -/
def recKeywords : List Str :=
  [str "recommend", str "follow-up", str "return", str "schedule",
   str "continue", str "discontinue", str "advise"]

/-- `extract_recommendations_for_pdf` from app.py: keep each keyword-bearing
non-blank line, stripped and bullet-prefixed, in order; join the first 10. -/
def extract_recommendations_for_pdf (text : Str) : Str :=
  let lines := pySplitAll '\n' text
  let recommendations := lines.foldl (fun acc line =>
    let line_lower := pyLower line
    if recKeywords.any (fun k => pyIn k line_lower) then
      if !(pyStrip line).isEmpty then acc ++ [str "• " ++ pyStrip line]
      else acc
    else acc) []
  pyJoin (str "\n") (recommendations.take 10)

example :
    (extract_patient_info_record (str "Patient Name: Jane Doe")).name
      = str "Jane Doe" := by decide

example :
    (extract_patient_info_record (str "The patient is a 45-year-old male")).age
      = str "45 years old" := by decide

/-- The textual content written into the PDF by app.py's `generate_pdf`,
as the ordered list of cell/multi-cell texts (styling, colours and ruled
lines carry no text and are not modelled; the footer timestamp is passed
in as `current_datetime`). -/
def generate_pdf_blocks (extracted_text analysis current_datetime : Str) : List Str :=
  let header := [str "VitaNote - Medical Report Analysis"]
  let body :=
    if !(pyIn (str "MEDICAL DOCUMENT ANALYSIS") extracted_text)
        && !(pyIn (str "DOCUMENT PROCESSING STATUS") extracted_text) then
      let patient_info := extract_patient_info_for_pdf extracted_text
      let surgical_info := extract_surgical_info_for_pdf extracted_text
      let recommendations := extract_recommendations_for_pdf extracted_text
      let clean_analysis := clean_html_tags analysis
      [str "Medical Report Summary"]
      ++ (if !patient_info.isEmpty then
            [str "PATIENT INFORMATION", clean_text patient_info] else [])
      ++ (if !surgical_info.isEmpty then
            [str "SURGICAL INFORMATION", clean_text surgical_info] else [])
      ++ [str "MEDICAL DETAILS", clean_text extracted_text]
      ++ (if !recommendations.isEmpty then
            [str "RECOMMENDATIONS", clean_text recommendations] else [])
      ++ [str "AI ANALYSIS", clean_text clean_analysis]
    else
      [str "DOCUMENT PROCESSING REPORT", clean_text extracted_text,
       clean_text analysis]
  header ++ body ++
  [str "Report generated on " ++ current_datetime,
   str "DISCLAIMER: This analysis is generated from the uploaded medical report. Always consult with your healthcare provider for medical advice and interpretation."]

/-! ## Claims C5, C10 — field-recovery precedence -/

theorem updName_keeps_gender (line ll : Str) (i : PatientRec) :
    (updName line ll i).gender = i.gender := by
  unfold updName
  repeat' split
  all_goals rfl

theorem updMr_keeps_gender (line ll : Str) (i : PatientRec) :
    (updMr line ll i).gender = i.gender := by
  unfold updMr
  repeat' split
  all_goals rfl

theorem updDate_keeps_gender (line ll : Str) (i : PatientRec) :
    (updDate line ll i).gender = i.gender := by
  unfold updDate
  repeat' split
  all_goals rfl

theorem updAccount_keeps_gender (line ll : Str) (i : PatientRec) :
    (updAccount line ll i).gender = i.gender := by
  unfold updAccount
  repeat' split
  all_goals rfl

theorem updHeight_keeps_gender (line ll : Str) (i : PatientRec) :
    (updHeight line ll i).gender = i.gender := by
  unfold updHeight
  repeat' split
  all_goals rfl

theorem updWeight_keeps_gender (line ll : Str) (i : PatientRec) :
    (updWeight line ll i).gender = i.gender := by
  unfold updWeight
  repeat' split
  all_goals rfl

theorem updAge_keeps_gender (line ll : Str) (i : PatientRec) :
    (updAge line ll i).gender = i.gender := by
  unfold updAge
  repeat' split
  all_goals rfl

theorem updMr_keeps_name (line ll : Str) (i : PatientRec) :
    (updMr line ll i).name = i.name := by
  unfold updMr
  repeat' split
  all_goals rfl

theorem updDate_keeps_name (line ll : Str) (i : PatientRec) :
    (updDate line ll i).name = i.name := by
  unfold updDate
  repeat' split
  all_goals rfl

theorem updAccount_keeps_name (line ll : Str) (i : PatientRec) :
    (updAccount line ll i).name = i.name := by
  unfold updAccount
  repeat' split
  all_goals rfl

theorem updHeight_keeps_name (line ll : Str) (i : PatientRec) :
    (updHeight line ll i).name = i.name := by
  unfold updHeight
  repeat' split
  all_goals rfl

theorem updWeight_keeps_name (line ll : Str) (i : PatientRec) :
    (updWeight line ll i).name = i.name := by
  unfold updWeight
  repeat' split
  all_goals rfl

theorem updGender_keeps_name (ll : Str) (i : PatientRec) :
    (updGender ll i).name = i.name := by
  unfold updGender
  repeat' split
  all_goals rfl

theorem updAge_keeps_name (line ll : Str) (i : PatientRec) :
    (updAge line ll i).name = i.name := by
  unfold updAge
  repeat' split
  all_goals rfl

/-- A recovered gender is not overwritten by the gender block. -/
theorem updGender_skip (ll : Str) (i : PatientRec)
    (h : i.gender ≠ str "Not specified") :
    (updGender ll i).gender = i.gender := by
  have hbeq : (i.gender == str "Not specified") = false := beq_eq_false_iff_ne.mpr h
  unfold updGender
  simp [hbeq]

/-- A line whose processed (stripped, lowered) form contains a non-empty
pattern is not blank. -/
theorem strip_ne_of_pyIn (pat : Str) {line : Str} (hp : pat ≠ [])
    (h : pyIn pat (pyLower (pyStrip line)) = true) :
    (pyStrip line).isEmpty = false := by
  cases hq : pyStrip line with
  | nil =>
    rw [hq] at h
    cases pat with
    | nil => exact absurd rfl hp
    | cons c cs => simp [pyLower, pyIn] at h
  | cons c cs => rfl

/-- The six field blocks that run before the gender block preserve it. -/
theorem patientPre_keeps_gender (line ll : Str) (i : PatientRec) :
    (updWeight line ll (updHeight line ll (updAccount line ll
      (updDate line ll (updMr line ll (updName line ll i)))))).gender = i.gender := by
  rw [updWeight_keeps_gender, updHeight_keeps_gender, updAccount_keeps_gender,
    updDate_keeps_gender, updMr_keeps_gender, updName_keeps_gender]

/-- A recovered gender survives a whole loop iteration. -/
theorem patientStep_keeps_gender (info : PatientRec) (line : Str)
    (h : info.gender ≠ str "Not specified") :
    (patientStep info line).gender = info.gender := by
  simp only [patientStep]
  split
  · rfl
  · rw [updAge_keeps_gender,
      updGender_skip _ _ (by rw [patientPre_keeps_gender]; exact h),
      patientPre_keeps_gender]

/-- A recovered gender survives the rest of the line pass. -/
theorem foldl_keeps_gender (ls : List Str) (i : PatientRec)
    (h : i.gender ≠ str "Not specified") :
    (ls.foldl patientStep i).gender = i.gender := by
  induction ls generalizing i with
  | nil => rfl
  | cons l ls ih =>
    rw [List.foldl_cons,
      ih _ (by rw [patientStep_keeps_gender i l h]; exact h),
      patientStep_keeps_gender i l h]

/-- `"male"` is a substring of `"female"`, so a female-bearing line is
also male-bearing. -/
theorem pyIn_male_of_female {s : Str} (h : pyIn (str "female") s = true) :
    pyIn (str "male") s = true := by
  rw [pyIn_infix_iff] at h ⊢
  exact List.IsInfix.trans (by rw [← pyIn_infix_iff]; decide) h

/-- A line not containing `male` (hence not `female` either) leaves the
gender block inert. -/
theorem updGender_no_male (ll : Str) (i : PatientRec)
    (h : pyIn (str "male") ll = false) :
    (updGender ll i).gender = i.gender := by
  have hf : pyIn (str "female") ll = false := by
    by_contra hc
    rw [Bool.not_eq_false] at hc
    rw [pyIn_male_of_female hc] at h
    cases h
  unfold updGender
  simp [h, hf]

theorem patientStep_no_male (info : PatientRec) (line : Str)
    (h : pyIn (str "male") (pyLower (pyStrip line)) = false) :
    (patientStep info line).gender = info.gender := by
  simp only [patientStep]
  split
  · rfl
  · rw [updAge_keeps_gender, updGender_no_male _ _ h, patientPre_keeps_gender]

theorem foldl_no_male (ls : List Str) (i : PatientRec)
    (h : ∀ l ∈ ls, pyIn (str "male") (pyLower (pyStrip l)) = false) :
    (ls.foldl patientStep i).gender = i.gender := by
  induction ls generalizing i with
  | nil => rfl
  | cons l ls ih =>
    rw [List.foldl_cons, ih _ (fun x hx => h x (List.mem_cons_of_mem _ hx)),
      patientStep_no_male i l (h l (List.mem_cons_self _ _))]

/-- The gender block sets `Female` on a female-bearing line when the
field still holds the sentinel. -/
theorem updGender_sets_female (ll : Str) (i : PatientRec)
    (hNS : i.gender = str "Not specified")
    (hf : pyIn (str "female") ll = true) :
    (updGender ll i).gender = str "Female" := by
  unfold updGender
  simp [hf, hNS]

theorem patientStep_sets_female (info : PatientRec) (line : Str)
    (hNS : info.gender = str "Not specified")
    (hf : pyIn (str "female") (pyLower (pyStrip line)) = true) :
    (patientStep info line).gender = str "Female" := by
  simp only [patientStep]
  split
  · next hblank =>
    have := strip_ne_of_pyIn (str "female") (by decide) hf
    rw [hblank] at this
    cases this
  · rw [updAge_keeps_gender]
    exact updGender_sets_female _ _ (by rw [patientPre_keeps_gender]; exact hNS) hf

/-- The whole-text fallback scans never touch gender. -/
theorem patientFallbacks_keeps_gender (text : Str) (i : PatientRec) :
    (patientFallbacks text i).gender = i.gender := by
  unfold patientFallbacks
  repeat' split
  all_goals simp [apply_ite PatientRec.gender]

/-- The cleanup pass applies `cleanupValue` to the gender field. -/
theorem patientCleanup_gender (p : PatientRec) :
    (patientCleanup p).gender = cleanupValue p.gender := rfl

/-- C10: if the first gender-bearing line (one whose processed form
contains `male`, which covers `female` as well) contains `female`, the
recovered gender is `Female` — the female check runs before the male
check within the line, and the sentinel guard keeps every later line from
changing it — and in particular it is never `Male`. -/
theorem c10_female_first_wins (text : Str) (pre post : List Str) (line : Str)
    (hsplit : pySplitAll '\n' text = pre ++ line :: post)
    (hpre : ∀ l ∈ pre, pyIn (str "male") (pyLower (pyStrip l)) = false)
    (hline : pyIn (str "female") (pyLower (pyStrip line)) = true) :
    (extract_patient_info_record text).gender = str "Female" ∧
    (extract_patient_info_record text).gender ≠ str "Male" := by
  have hA : (pre.foldl patientStep patientInit).gender = str "Not specified" := by
    rw [foldl_no_male pre patientInit hpre]
    rfl
  have hB : (patientStep (pre.foldl patientStep patientInit) line).gender
      = str "Female" :=
    patientStep_sets_female _ _ hA hline
  have hloop : (patientLinePass (pySplitAll '\n' text)).gender = str "Female" := by
    rw [hsplit]
    unfold patientLinePass
    rw [List.foldl_append, List.foldl_cons,
      foldl_keeps_gender _ _ (by rw [hB]; decide), hB]
  have hg : (extract_patient_info_record text).gender = str "Female" := by
    unfold extract_patient_info_record
    rw [patientCleanup_gender, patientFallbacks_keeps_gender, hloop]
    decide
  exact ⟨hg, by rw [hg]; decide⟩

/-- C10 witness: the first gender-bearing line says `female`; a later
line says `male`; the recovered gender is `Female`. -/
theorem c10_female_first_wins_witness :
    (extract_patient_info_record
      (str "Height: 170\nThe patient is female\nmale ward notes")).gender
      = str "Female" ∧
    (extract_patient_info_record
      (str "Height: 170\nThe patient is female\nmale ward notes")).gender
      ≠ str "Male" :=
  c10_female_first_wins _ [str "Height: 170"] [str "male ward notes"]
    (str "The patient is female") (by decide) (by decide) (by decide)

/-- `parts = line.split(':', 1); parts[1].strip()` when the split
produced two parts. -/
def colonValue1 (line : Str) : Option Str :=
  match pySplit1 ':' line with
  | _ :: w :: _ => some (pyStrip w)
  | _ => none

/-- C5 counterexample: two `Patient Name:` lines — the later one
overwrites the earlier value, so the first qualifying line does not win. -/
theorem c5_name_last_match_wins_counterexample :
    (extract_patient_info_record
      (str "Patient Name: Aaa\nPatient Name: Bbb")).name = str "Bbb" ∧
    (extract_patient_info_record
      (str "Patient Name: Aaa\nPatient Name: Bbb")).name ≠ str "Aaa" := by
  constructor <;> decide

/-- The seven field blocks that run after the name block preserve it. -/
theorem patientPost_keeps_name (line ll : Str) (i : PatientRec) :
    (updAge line ll (updGender ll (updWeight line ll (updHeight line ll
      (updAccount line ll (updDate line ll (updMr line ll i))))))).name
      = i.name := by
  rw [updAge_keeps_name, updGender_keeps_name, updWeight_keeps_name,
    updHeight_keeps_name, updAccount_keeps_name, updDate_keeps_name,
    updMr_keeps_name]

/-- On a line matching `patient name:` with a colon value, the loop
iteration sets the name to that value regardless of the previous state. -/
theorem patientStep_sets_name (info : PatientRec) (line v : Str)
    (hg : pyIn (str "patient name:") (pyLower (pyStrip line)) = true)
    (hv : colonValue1 (pyStrip line) = some v) :
    (patientStep info line).name = v := by
  simp only [patientStep]
  split
  · next hblank =>
    have := strip_ne_of_pyIn (str "patient name:") (by decide) hg
    rw [hblank] at this
    cases this
  · rw [patientPost_keeps_name]
    unfold updName
    rw [if_pos (by rw [hg]; rfl)]
    unfold colonValue1 at hv
    rcases hsp : pySplit1 ':' (pyStrip line) with _ | ⟨a, _ | ⟨w, t⟩⟩ <;>
      rw [hsp] at hv <;> simp at hv
    simp [hv]

/-- On a line matching `preoperative diagnosis:` with a colon value, the
surgical loop iteration sets the field regardless of the previous state. -/
theorem surgicalStep_sets_preop (info : SurgicalRec) (line v : Str)
    (hg : pyIn (str "preoperative diagnosis:") (pyLower (pyStrip line)) = true)
    (hv : colonValue1 (pyStrip line) = some v) :
    (surgicalStep info line).preoperative_diagnosis = v := by
  simp only [surgicalStep]
  split
  · next hblank =>
    have := strip_ne_of_pyIn (str "preoperative diagnosis:") (by decide) hg
    rw [hblank] at this
    cases this
  · unfold colonValue1 at hv
    rcases hsp : pySplit1 ':' (pyStrip line) with _ | ⟨a, _ | ⟨w, t⟩⟩ <;>
      rw [hsp] at hv <;> simp at hv
    simp [hv]

/-- A recovered surgeon is never overwritten. -/
theorem surgicalStep_keeps_surgeon (info : SurgicalRec) (line : Str)
    (h : info.surgeon ≠ str "Not specified") :
    (surgicalStep info line).surgeon = info.surgeon := by
  have hbeq : (info.surgeon == str "Not specified") = false :=
    beq_eq_false_iff_ne.mpr h
  simp only [surgicalStep, hbeq, Bool.and_false]
  repeat' split
  all_goals first | rfl | simp_all

/-- A recovered anesthesia value is never overwritten. -/
theorem surgicalStep_keeps_anesthesia (info : SurgicalRec) (line : Str)
    (h : info.anesthesia ≠ str "Not specified") :
    (surgicalStep info line).anesthesia = info.anesthesia := by
  have hbeq : (info.anesthesia == str "Not specified") = false :=
    beq_eq_false_iff_ne.mpr h
  simp only [surgicalStep, hbeq, Bool.and_false]
  repeat' split
  all_goals first | rfl | simp_all

/-- A recovered condition value is never overwritten. -/
theorem surgicalStep_keeps_condition (info : SurgicalRec) (line : Str)
    (h : info.condition ≠ str "Not specified") :
    (surgicalStep info line).condition = info.condition := by
  have hbeq : (info.condition == str "Not specified") = false :=
    beq_eq_false_iff_ne.mpr h
  simp only [surgicalStep, hbeq, Bool.and_false]
  repeat' split
  all_goals first | rfl | simp_all

/-- A recovered complications value is never overwritten. -/
theorem surgicalStep_keeps_complications (info : SurgicalRec) (line : Str)
    (h : info.complications ≠ str "Not specified") :
    (surgicalStep info line).complications = info.complications := by
  have hbeq : (info.complications == str "Not specified") = false :=
    beq_eq_false_iff_ne.mpr h
  simp only [surgicalStep, hbeq, Bool.and_false]
  repeat' split
  all_goals first | rfl | simp_all

/-- C5 amended: first-match-wins holds only for the guarded fields —
patient gender and surgical surgeon / anesthesia / condition /
complications, whose updates require the field to still be the sentinel;
the unguarded colon-labelled fields are overwritten by each later
qualifying line (last match wins), shown for patient name and surgical
preoperative diagnosis. -/
theorem c5_precedence_amended :
    (∀ (info : PatientRec) (line : Str),
      info.gender ≠ str "Not specified" →
      (patientStep info line).gender = info.gender) ∧
    (∀ (info : SurgicalRec) (line : Str),
      info.surgeon ≠ str "Not specified" →
      (surgicalStep info line).surgeon = info.surgeon) ∧
    (∀ (info : SurgicalRec) (line : Str),
      info.anesthesia ≠ str "Not specified" →
      (surgicalStep info line).anesthesia = info.anesthesia) ∧
    (∀ (info : SurgicalRec) (line : Str),
      info.condition ≠ str "Not specified" →
      (surgicalStep info line).condition = info.condition) ∧
    (∀ (info : SurgicalRec) (line : Str),
      info.complications ≠ str "Not specified" →
      (surgicalStep info line).complications = info.complications) ∧
    (∀ (ls : List Str) (line v : Str),
      pyIn (str "patient name:") (pyLower (pyStrip line)) = true →
      colonValue1 (pyStrip line) = some v →
      (patientLinePass (ls ++ [line])).name = v) ∧
    (∀ (ls : List Str) (line v : Str),
      pyIn (str "preoperative diagnosis:") (pyLower (pyStrip line)) = true →
      colonValue1 (pyStrip line) = some v →
      ((ls ++ [line]).foldl surgicalStep surgicalInit).preoperative_diagnosis = v) := by
  refine ⟨patientStep_keeps_gender, surgicalStep_keeps_surgeon,
    surgicalStep_keeps_anesthesia, surgicalStep_keeps_condition,
    surgicalStep_keeps_complications, ?_, ?_⟩
  · intro ls line v hg hv
    unfold patientLinePass
    rw [List.foldl_append, List.foldl_cons, List.foldl_nil]
    exact patientStep_sets_name _ line v hg hv
  · intro ls line v hg hv
    rw [List.foldl_append, List.foldl_cons, List.foldl_nil]
    exact surgicalStep_sets_preop _ line v hg hv

/-- C5 amended, witness: concrete guarded-field preservation and
last-match overwrites. -/
theorem c5_precedence_witness :
    (patientStep { patientInit with gender := str "Female" }
        (str "male patient")).gender = str "Female" ∧
    (surgicalStep { surgicalInit with surgeon := str "Dr. A" }
        (str "surgeon: Dr. B")).surgeon = str "Dr. A" ∧
    (patientLinePass
        [str "Patient Name: Aaa", str "Patient Name: Bbb"]).name = str "Bbb" ∧
    (([str "Preoperative Diagnosis: X"] ++ [str "Preoperative Diagnosis: Y"]).foldl
        surgicalStep surgicalInit).preoperative_diagnosis = str "Y" := by
  refine ⟨c5_precedence_amended.1 _ _ (by decide),
    c5_precedence_amended.2.1 _ _ (by decide), ?_, ?_⟩
  · have := c5_precedence_amended.2.2.2.2.2.1 [str "Patient Name: Aaa"]
      (str "Patient Name: Bbb") (str "Bbb") (by decide) (by decide)
    exact this
  · exact c5_precedence_amended.2.2.2.2.2.2 [str "Preoperative Diagnosis: X"]
      (str "Preoperative Diagnosis: Y") (str "Y") (by decide) (by decide)

/-! ## Claim C4 — sentinel routing -/

/-- C4: text containing `MEDICAL DOCUMENT ANALYSIS` routes the renderer
to the two-block Document Processing Report layout — header, report
title, raw extracted text, raw analysis, footer; no field sections — and
routes the Analyzer's fallback to the metadata-analysis template. -/
theorem c4_sentinel_selects_metadata_branch (text analysis current_datetime : Str)
    (h : pyIn (str "MEDICAL DOCUMENT ANALYSIS") text = true) :
    generate_pdf_blocks text analysis current_datetime =
      [str "VitaNote - Medical Report Analysis",
       str "DOCUMENT PROCESSING REPORT", clean_text text, clean_text analysis,
       str "Report generated on " ++ current_datetime,
       str "DISCLAIMER: This analysis is generated from the uploaded medical report. Always consult with your healthcare provider for medical advice and interpretation."] ∧
    generate_fallback_analysis text = generate_metadata_analysis text := by
  constructor
  · unfold generate_pdf_blocks
    simp [h]
  · unfold generate_fallback_analysis
    simp [h]

/-- C4 witness at a concrete sentinel-bearing text. -/
theorem c4_sentinel_witness :
    generate_pdf_blocks (str "MEDICAL DOCUMENT ANALYSIS\nFile: x.png")
        (str "analysis body") (str "June 1, 2025 at 10:00 AM") =
      [str "VitaNote - Medical Report Analysis",
       str "DOCUMENT PROCESSING REPORT",
       clean_text (str "MEDICAL DOCUMENT ANALYSIS\nFile: x.png"),
       clean_text (str "analysis body"),
       str "Report generated on " ++ str "June 1, 2025 at 10:00 AM",
       str "DISCLAIMER: This analysis is generated from the uploaded medical report. Always consult with your healthcare provider for medical advice and interpretation."] ∧
    generate_fallback_analysis (str "MEDICAL DOCUMENT ANALYSIS\nFile: x.png")
      = generate_metadata_analysis (str "MEDICAL DOCUMENT ANALYSIS\nFile: x.png") :=
  c4_sentinel_selects_metadata_branch _ _ _ (by decide)

/-! ## Claim C6 — recommendation recovery -/

/-- Whitespace characters are fixed points of `Char.toLower`. -/
theorem toLower_of_ws {c : Char} (h : pyIsSpace c = true) : c.toLower = c := by
  simp only [pyIsSpace, Bool.or_eq_true, beq_iff_eq] at h
  rcases h with ((((h | h) | h) | h) | h) | h <;> subst h <;> decide

/-- A line that strips to nothing is all whitespace. -/
theorem strip_nil_all_ws {l : Str} (h : (pyStrip l).isEmpty = true) :
    ∀ c ∈ l, pyIsSpace c = true := by
  unfold pyStrip at h
  rw [List.isEmpty_iff, List.reverse_eq_nil_iff, List.dropWhile_eq_nil_iff] at h
  intro c hc
  have hc2 : c ∈ l.takeWhile pyIsSpace ++ l.dropWhile pyIsSpace := by
    rw [List.takeWhile_append_dropWhile]
    exact hc
  rcases List.mem_append.mp hc2 with h1 | h2
  · exact List.mem_takeWhile_imp h1
  · exact h c (List.mem_reverse.mpr h2)

/-- A line containing a recommendation keyword cannot strip to nothing
(so the loop's inner non-blank check is redundant). -/
theorem keyword_line_not_blank {l k : Str} (hk : k ∈ recKeywords)
    (h : pyIn k (pyLower l) = true) : (pyStrip l).isEmpty = false := by
  by_contra hc
  rw [Bool.not_eq_false] at hc
  have hall := strip_nil_all_ws hc
  rw [pyIn_infix_iff] at h
  have hsub := h.subset
  have hlowws : ∀ c0 ∈ pyLower l, pyIsSpace c0 = true := by
    intro c0 hc0
    rw [pyLower, List.mem_map] at hc0
    obtain ⟨c, hcl, rfl⟩ := hc0
    rw [toLower_of_ws (hall c hcl)]
    exact hall c hcl
  fin_cases hk
  · exact absurd (hlowws 'r' (hsub (by decide))) (by decide)
  · exact absurd (hlowws 'f' (hsub (by decide))) (by decide)
  · exact absurd (hlowws 'r' (hsub (by decide))) (by decide)
  · exact absurd (hlowws 's' (hsub (by decide))) (by decide)
  · exact absurd (hlowws 'c' (hsub (by decide))) (by decide)
  · exact absurd (hlowws 'd' (hsub (by decide))) (by decide)
  · exact absurd (hlowws 'a' (hsub (by decide))) (by decide)

/-- The recommendation loop accumulates exactly the keyword-bearing
lines, stripped and bullet-prefixed, in order. -/
theorem rec_loop_eq (lines : List Str) (acc : List Str) :
    lines.foldl (fun acc line =>
      if recKeywords.any (fun k => pyIn k (pyLower line)) then
        if !(pyStrip line).isEmpty then acc ++ [str "• " ++ pyStrip line]
        else acc
      else acc) acc
    = acc ++ (lines.filter
        (fun l => recKeywords.any (fun k => pyIn k (pyLower l)))).map
        (fun l => str "• " ++ pyStrip l) := by
  induction lines generalizing acc with
  | nil => simp
  | cons l ls ih =>
    by_cases hq : (recKeywords.any fun k => pyIn k (pyLower l)) = true
    · obtain ⟨k, hk, hin⟩ := List.any_eq_true.mp hq
      have hb := keyword_line_not_blank hk hin
      rw [List.foldl_cons, List.filter_cons]
      rw [if_pos hq, if_pos (show (!(pyStrip l).isEmpty) = true by rw [hb]; rfl),
        ih, if_pos hq, List.map_cons]
      simp [List.append_assoc]
    · rw [List.foldl_cons, List.filter_cons]
      rw [if_neg hq, if_neg hq, ih]

/-- Eleven qualifying recommendation lines with a non-qualifying line
interspersed. -/
def elevenRecLines : Str :=
  str "recommend r01\nno trigger here\nrecommend r02\nrecommend r03\nrecommend r04\nrecommend r05\nrecommend r06\nrecommend r07\nrecommend r08\nrecommend r09\nrecommend r10\nrecommend r11"

/-- C6: the recovered recommendations are exactly the keyword-bearing
lines, each stripped and bullet-prefixed, in original order, truncated to
the first 10; in particular the eleven-qualifying-line input keeps
exactly the first ten and drops the non-qualifying line. -/
theorem c6_recommendations_filter_take_ten :
    (∀ text,
      extract_recommendations_for_pdf text =
        pyJoin (str "\n")
          ((((pySplitAll '\n' text).filter
              (fun l => recKeywords.any (fun k => pyIn k (pyLower l)))).map
            (fun l => str "• " ++ pyStrip l)).take 10)) ∧
    extract_recommendations_for_pdf elevenRecLines =
      str "• recommend r01\n• recommend r02\n• recommend r03\n• recommend r04\n• recommend r05\n• recommend r06\n• recommend r07\n• recommend r08\n• recommend r09\n• recommend r10" := by
  constructor
  · intro text
    simp only [extract_recommendations_for_pdf]
    rw [rec_loop_eq]
    simp
  · decide

/-! ## Claim C7 — all fields always present -/

/-- The eight labelled entries of the formatted patient block. -/
def patientLabels : List Str :=
  [str "Patient Name: ", str "MR Number: ", str "Date of Operation: ",
   str "Age: ", str "Gender: ", str "Account No: ", str "Height: ",
   str "Weight: "]

/-- The seven labelled entries of the formatted surgical block. -/
def surgicalLabels : List Str :=
  [str "Preoperative Diagnosis: ", str "Postoperative Diagnosis: ",
   str "Operation Performed: ", str "Surgeon: ", str "Anesthesia: ",
   str "Condition: ", str "Complications: "]

/-- C7: every PatientInfo field (8) and SurgicalInfo field (7) is present
in the formatted result for every input, and on a no-match input every
field carries the sentinel `Not specified`. -/
theorem c7_fields_always_present :
    (∀ text, patientLabels.all
        (fun lab => pyIn lab (extract_patient_info_for_pdf text)) = true) ∧
    (∀ text, surgicalLabels.all
        (fun lab => pyIn lab (extract_surgical_info_for_pdf text)) = true) ∧
    extract_patient_info_for_pdf (str "hello") =
      str "Patient Name: Not specified\nMR Number: Not specified\nDate of Operation: Not specified\nAge: Not specified\nGender: Not specified\nAccount No: Not specified\nHeight: Not specified\nWeight: Not specified" ∧
    extract_surgical_info_for_pdf (str "hello") =
      str "Preoperative Diagnosis: Not specified\nPostoperative Diagnosis: Not specified\nOperation Performed: Not specified\nSurgeon: Not specified\nAnesthesia: Not specified\nCondition: Not specified\nComplications: Not specified" := by
  refine ⟨?_, ?_, by decide, by decide⟩
  · intro text
    rw [List.all_eq_true]
    intro lab hlab
    fin_cases hlab <;>
    · simp only [extract_patient_info_for_pdf]
      generalize extract_patient_info_record text = p
      simp only [pyJoin, List.append_assoc]
      repeat first
        | exact pyIn_self_append _ _
        | apply pyIn_append_right
  · intro text
    rw [List.all_eq_true]
    intro lab hlab
    fin_cases hlab <;>
    · simp only [extract_surgical_info_for_pdf]
      generalize extract_surgical_info_record text = q
      simp only [pyJoin, List.append_assoc]
      repeat first
        | exact pyIn_self_append _ _
        | apply pyIn_append_right
